import Mathlib

/-!
Verification development for the Nomad Task Template Manager
(client/allocrunner/taskrunner/template/template.go).

The Go source is shallowly embedded: Go maps become association lists or
functions into `Option`, `time.Time` becomes `Nat` (0 is the zero time),
channel-driven loops become step functions over an explicit message type,
and calls into external collaborators (task lifecycle, event emitter,
rendering engine, filesystem, RNG) are recorded as explicit `Action`
values or supplied as oracle parameters.
-/

namespace NomadTemplate

/-! ## Data model (structs.Template and friends) -/

/-- Template change modes (structs.TemplateChangeMode*). -/
inductive ChangeMode
  | noop
  | signal
  | restart
  | script
  deriving DecidableEq

/-- structs.ChangeScript: command, args, timeout, fail_on_error. -/
structure ChangeScript where
  command : String := ""
  args : List String := []
  timeout : Nat := 0
  failOnError : Bool := false
  deriving DecidableEq

/-- The parts of structs.Template the TaskTemplateManager reads. -/
structure Template where
  sourcePath : String := ""
  destPath : String := ""
  embeddedTmpl : String := ""
  changeMode : ChangeMode := ChangeMode.restart
  changeSignal : String := ""
  changeScript : ChangeScript := {}
  splay : Nat := 0
  perms : String := ""
  leftDelim : String := ""
  rightDelim : String := ""
  errMissingKey : Bool := false
  uid : Option Int := none
  gid : Option Int := none
  envvars : Bool := false
  once : Bool := false
  wait : Option (Option Nat × Option Nat) := none
  deriving DecidableEq

/-- manager.RenderEvent, with times as `Nat` (0 = Go's zero time). -/
structure RenderEvent where
  lastWouldRender : Nat := 0
  lastDidRender : Nat := 0
  missingDeps : Option (List String) := none
  deriving DecidableEq

/-- The task-event kinds the TTM constructs (structs.Task* constants and the
"Template" source name used for telemetry events). -/
inductive TaskEventType
  | taskKilling
  | taskRestartSignal
  | taskSignaling
  | taskHookFailed
  | taskHookMessage
  | template
  deriving DecidableEq

/-- structs.TaskEvent as built with NewTaskEvent + setters. Signal tokens
(os.Signal) are modelled as `Nat`. -/
structure TaskEvent where
  type : TaskEventType
  displayMessage : String := ""
  failsTask : Bool := false
  taskSignal : Nat := 0
  deriving DecidableEq

def NewTaskEvent (t : TaskEventType) : TaskEvent := { type := t }

def TaskEvent.SetFailsTask (e : TaskEvent) : TaskEvent := { e with failsTask := true }

def TaskEvent.SetDisplayMessage (e : TaskEvent) (m : String) : TaskEvent :=
  { e with displayMessage := m }

def TaskEvent.SetTaskSignal (e : TaskEvent) (s : Nat) : TaskEvent :=
  { e with taskSignal := s }

/-- An outbound call the TTM makes on its collaborators.  `kill`,
`restartTask`, `signalTask` and `execScript` go to the task-lifecycle
collaborator; `emitEvent` goes to the event emitter; `setTemplateEnv`
goes to the environment builder. -/
inductive Action
  | kill (ev : TaskEvent)
  | restartTask (ev : TaskEvent) (failure : Bool)
  | signalTask (ev : TaskEvent) (sig : String)
  | execScript (timeout : Nat) (command : String) (args : List String)
  | emitEvent (ev : TaskEvent)
  | setTemplateEnv (env : List (String × String))
  deriving DecidableEq

/-- Whether an action is a call on the task-lifecycle collaborator. -/
def Action.isLifecycleCall : Action → Bool
  | .kill _ => true
  | .restartTask _ _ => true
  | .signalTask _ _ => true
  | .execScript _ _ _ => true
  | .emitEvent _ => false
  | .setTemplateEnv _ => false

def lifecycleCalls (acts : List Action) : List Action :=
  acts.filter Action.isLifecycleCall

/-! ## Maps as association lists -/

/-- handledRenders: template id -> last handled LastDidRender time.
A missing key reads as the Go zero time 0. -/
abbrev HandledRenders := List (String × Nat)

def hrLookup (hr : HandledRenders) (id : String) : Nat :=
  (hr.lookup id).getD 0

/-- Map assignment; the new binding shadows any earlier one. -/
def hrSet (hr : HandledRenders) (id : String) (t : Nat) : HandledRenders :=
  (id, t) :: hr

/-- The runner's RenderEvents() map, with iteration order made explicit. -/
abbrev RenderEvents := List (String × RenderEvent)

/-- events[id].LastDidRender (Go map indexing; absent key gives zero value). -/
def evLdr (events : RenderEvents) (id : String) : Nat :=
  ((events.lookup id).getD {}).lastDidRender

/-- tm.lookup: consul-template id -> Nomad templates. -/
abbrev TemplateLookup := List (String × List Template)

/-! ## onTemplateRendered -/

/-- Per-batch aggregation state built while scanning the events map:
handledRenders (mutated in place in Go), the `handling` slice, the signal
set, the script list, the restart flag, the max splay, and the env-builder
calls made while scanning. -/
structure ScanOut where
  hr : HandledRenders
  handling : List String := []
  signalNames : List String := []
  scripts : List ChangeScript := []
  restart : Bool := false
  splay : Nat := 0
  envActs : List Action := []
  deriving DecidableEq

/-- Insertion into the signal set (a Go map-of-struct insert). -/
def insertName (l : List String) (s : String) : List String :=
  if s ∈ l then l else l ++ [s]

/-- The splay update: when tmpl.Splay exceeds the running max, take it. -/
def bumpSplay (st : ScanOut) (t : Template) : ScanOut :=
  if t.splay > st.splay then { st with splay := t.splay } else st

/-- One iteration of the `for _, tmpl := range tmpls` switch on ChangeMode.
Note the Go `continue` under the noop case skips the splay update. -/
def classifyTemplate (st : ScanOut) (t : Template) : ScanOut :=
  match t.changeMode with
  | .noop => st
  | .signal => bumpSplay { st with signalNames := insertName st.signalNames t.changeSignal } t
  | .restart => bumpSplay { st with restart := true } t
  | .script => bumpSplay { st with scripts := st.scripts ++ [t.changeScript] } t

def classifyTemplates (st : ScanOut) (tmpls : List Template) : ScanOut :=
  tmpls.foldl classifyTemplate st

/-- Result of the event scan: either a fatal Kill was issued (dispatcher
returns at once) or the scan finished. -/
inductive ScanResult
  | killed (hr : HandledRenders) (acts : List Action)
  | done (st : ScanOut)
  deriving DecidableEq

def unknownIdKill (id : String) : Action :=
  .kill ((NewTaskEvent .taskKilling).SetFailsTask.SetDisplayMessage
    ("Template runner returned unknown template id \"" ++ id ++ "\""))

def envFailKill (e : String) : Action :=
  .kill ((NewTaskEvent .taskKilling).SetFailsTask.SetDisplayMessage
    ("Template failed to read environment variables: " ++ e))

/-- The `for id, event := range events` loop of onTemplateRendered.
`envLoad` is the (oracle) outcome of loadTemplateEnv, which reads rendered
env files from the filesystem. -/
def scanEvents (lookup : TemplateLookup)
    (envLoad : Except String (List (String × String))) (allRenderedTime : Nat) :
    RenderEvents → ScanOut → ScanResult
  | [], st => .done st
  | (id, ev) :: rest, st =>
    if allRenderedTime ≥ ev.lastDidRender then
      scanEvents lookup envLoad allRenderedTime rest
        { st with hr := hrSet st.hr id allRenderedTime }
    else if hrLookup st.hr id ≥ ev.lastDidRender then
      scanEvents lookup envLoad allRenderedTime rest st
    else
      match lookup.lookup id with
      | none => .killed st.hr (st.envActs ++ [unknownIdKill id])
      | some tmpls =>
        match envLoad with
        | .error e => .killed st.hr (st.envActs ++ [envFailKill e])
        | .ok m =>
          let st1 := classifyTemplates
            { st with envActs := st.envActs ++ [.setTemplateEnv m] } tmpls
          scanEvents lookup envLoad allRenderedTime rest
            { st1 with handling := st1.handling ++ [id] }

/-- Message for the aggregate-signal-failure Kill ("Template failed to send
signals %v: %v"; the Go %v rendering of the token list is abbreviated). -/
def failedSignalsMsg (sigs : List String) : String :=
  "Template failed to send signals " ++ String.intercalate ", " sigs

/-- handleChangeModeSignal: one Signal call per name in the set; if any call
fails (per the `signalFail` oracle) a Kill with the aggregate follows. -/
def handleChangeModeSignal (sigTable : List (String × Nat))
    (signalFail : String → Bool) (sigs : List String) : List Action :=
  let calls := sigs.map fun sg =>
    Action.signalTask
      (((NewTaskEvent .taskSignaling).SetTaskSignal ((sigTable.lookup sg).getD 0)).SetDisplayMessage
        "Template re-rendered") sg
  if (sigs.filter signalFail).isEmpty then calls
  else calls ++ [.kill ((NewTaskEvent .taskKilling).SetFailsTask.SetDisplayMessage
    (failedSignalsMsg sigs))]

/-- Outcome of Lifecycle.Exec for a change-mode script. -/
inductive ExecResult
  | failed (exitCode : Int) (errText : String)
  | exited (exitCode : Int)
  deriving DecidableEq

/-- Go's %v rendering of a string slice. -/
def goStrSlice (args : List String) : String :=
  "[" ++ String.intercalate " " args ++ "]"

def handleScriptError (script : ChangeScript) (msg : String) : List Action :=
  [.emitEvent ((NewTaskEvent .taskHookFailed).SetDisplayMessage msg)] ++
  (if script.failOnError then
    [.kill ((NewTaskEvent .taskKilling).SetFailsTask.SetDisplayMessage
      "Template script failed, task is being killed")]
  else [])

def processScript (execOutcome : ChangeScript → ExecResult)
    (script : ChangeScript) : List Action :=
  .execScript script.timeout script.command script.args ::
  match execOutcome script with
  | .failed code e =>
    handleScriptError script
      ("Template failed to run script " ++ script.command ++ " with arguments " ++
        goStrSlice script.args ++ " on change: " ++ e ++ ". Exit code: " ++ toString code)
  | .exited code =>
    if code ≠ 0 then
      handleScriptError script
        ("Template ran script " ++ script.command ++ " with arguments " ++
          goStrSlice script.args ++ " on change but it exited with code: " ++ toString code)
    else
      [.emitEvent ((NewTaskEvent .taskHookMessage).SetDisplayMessage
        ("Template successfully ran script " ++ script.command ++ " with arguments: " ++
          goStrSlice script.args ++ ". Exit code: 0"))]

/-- Scripts of one batch (run concurrently in Go; their actions are listed in
slice order here — the claims only inspect membership). -/
def handleChangeModeScript (execOutcome : ChangeScript → ExecResult)
    (scripts : List ChangeScript) : List Action :=
  (scripts.map (processScript execOutcome)).flatten

/-- The commit loop: for each id in handling, set handledRenders at id to
events[id].LastDidRender. -/
def commitHandled (events : RenderEvents) (handling : List String)
    (hr : HandledRenders) : HandledRenders :=
  handling.foldl (fun hr id => hrSet hr id (evLdr events id)) hr

/-- Result of one onTemplateRendered call: the updated handledRenders map,
the collaborator calls made, and the splay delay slept (none = no sleep). -/
structure DispatchResult where
  handledRenders : HandledRenders
  actions : List Action
  delay : Option Nat := none
  deriving DecidableEq

def restartAction : Action :=
  .restartTask ((NewTaskEvent .taskRestartSignal).SetDisplayMessage
    "Template with change_mode restart re-rendered") false

/-- onTemplateRendered.  `splayOffset` models rand.Int63n (contract: result
in [0, n) for n > 0); `shutdownDuringSplay` models the shutdown channel
winning the select against the splay timer. -/
def onTemplateRendered (lookup : TemplateLookup) (sigTable : List (String × Nat))
    (envLoad : Except String (List (String × String)))
    (signalFail : String → Bool) (execOutcome : ChangeScript → ExecResult)
    (splayOffset : Nat → Nat) (shutdownDuringSplay : Bool)
    (handledRenders : HandledRenders) (allRenderedTime : Nat)
    (events : RenderEvents) : DispatchResult :=
  match scanEvents lookup envLoad allRenderedTime events { hr := handledRenders } with
  | .killed hr acts => { handledRenders := hr, actions := acts }
  | .done st =>
    let shouldHandle := st.restart || !st.signalNames.isEmpty || !st.scripts.isEmpty
    if !shouldHandle then { handledRenders := st.hr, actions := st.envActs }
    else if st.splay ≠ 0 && shutdownDuringSplay then
      { handledRenders := st.hr, actions := st.envActs }
    else
      let delay : Option Nat := if st.splay ≠ 0 then some (splayOffset st.splay) else none
      let hr := commitHandled events st.handling st.hr
      let acts :=
        if st.restart then [restartAction]
        else handleChangeModeSignal sigTable signalFail st.signalNames ++
          handleChangeModeScript execOutcome st.scripts
      { handledRenders := hr, actions := st.envActs ++ acts, delay := delay }

/-! ## The channel loops as step machines

handleFirstRender and handleTemplateRerenders are `select` loops; each arm
becomes a message constructor and each loop a step function from state and
message to a new state, the outbound calls made, and whether the loop
continues or returns. -/

/-- Per-manager context: the lookup table, the parsed signal table, and the
oracles for the external collaborators used while dispatching. -/
structure TTMCtx where
  lookup : TemplateLookup := []
  sigTable : List (String × Nat) := []
  envLoad : Except String (List (String × String)) := .ok []
  signalFail : String → Bool := fun _ => false
  execOutcome : ChangeScript → ExecResult := fun _ => .exited 0
  splayOffset : Nat → Nat := fun _ => 0
  shutdownDuringSplay : Bool := false
  isRunning : Bool := false

inductive StepOut (σ : Type)
  | next (s : σ) (acts : List Action)
  | exit (s : σ) (acts : List Action)
  deriving DecidableEq

/-- State of the first-render gate loop. -/
structure FirstRenderState where
  missingDependencies : Option (List String) := none
  outstandingEvent : Bool := false
  dirtyEvents : RenderEvents := []
  deriving DecidableEq

/-- The arms of the first-render select: shutdown channel, error channel
(closed or carrying an error), TemplateRenderedCh, RenderEventCh, and the
missing-deps event timer. -/
inductive FirstRenderMsg
  | shutdown
  | errClosed
  | errMsg (e : String)
  | templateRendered (events : RenderEvents)
  | renderEvent (events : RenderEvents)
  | timerTick
  deriving DecidableEq

def templateFailedKill (e : String) : Action :=
  .kill ((NewTaskEvent .taskKilling).SetFailsTask.SetDisplayMessage
    ("Template failed: " ++ e))

/-- Map assignment into the dirtyEvents map. -/
def dirtySet (d : RenderEvents) (id : String) (ev : RenderEvent) : RenderEvents :=
  if (d.lookup id).isSome then
    d.map (fun p => if p.1 = id then (id, ev) else p)
  else d ++ [(id, ev)]

/-- The `for _, event := range events` loop under TemplateRenderedCh: a zero
LastWouldRender aborts the pass (`continue WAIT`), keeping the dirty events
collected so far; a non-zero LastDidRender marks the event dirty. -/
def collectDirty (dirty : RenderEvents) : RenderEvents → RenderEvents × Bool
  | [] => (dirty, true)
  | (id, ev) :: rest =>
    if ev.lastWouldRender = 0 then (dirty, false)
    else if ev.lastDidRender ≠ 0 then collectDirty (dirtySet dirty id ev) rest
    else collectDirty dirty rest

def missingDepEventLimit : Nat := 3

/-- Lexicographic comparison of char sequences by code point; the model of
Go's byte-wise string order used by sort.Strings. -/
def leChars : List Char → List Char → Bool
  | [], _ => true
  | _ :: _, [] => false
  | a :: as, b :: bs =>
    if a.toNat < b.toNat then true
    else if b.toNat < a.toNat then false
    else leChars as bs

def strLe (a b : String) : Bool := leChars a.data b.data

/-- sort.Strings, modelled as an insertion sort under `strLe`. -/
def sortStrings (l : List String) : List String :=
  List.insertionSort (fun a b => strLe a b = true) l

/-- The body of the eventTimer arm: sort the missing set, truncate past the
limit with "and N more", and join with ", ". -/
def missingDepMsg (deps : List String) : String :=
  let sorted := sortStrings deps
  let missingSlice :=
    if sorted.length > missingDepEventLimit then
      sorted.take missingDepEventLimit ++
        ["and " ++ toString (sorted.length - missingDepEventLimit) ++ " more"]
    else sorted
  "Missing: " ++ String.intercalate ", " missingSlice

/-- The union of MissingDeps over the runner's render events. -/
def joinedMissing (events : RenderEvents) : List String :=
  events.foldl (fun acc p =>
    match p.2.missingDeps with
    | none => acc
    | some deps => deps.foldl insertName acc) []

/-- One pass of the handleFirstRender select loop. -/
def handleFirstRenderStep (ctx : TTMCtx) (st : FirstRenderState) :
    FirstRenderMsg → StepOut FirstRenderState
  | .shutdown => .exit st []
  | .errClosed => .next st []
  | .errMsg e => .next st [templateFailedKill e]
  | .templateRendered events =>
    if events.length < ctx.lookup.length then .next st []
    else
      match collectDirty st.dirtyEvents events with
      | (dirty, false) => .next { st with dirtyEvents := dirty } []
      | (dirty, true) =>
        if !dirty.isEmpty && ctx.isRunning then
          let r := onTemplateRendered ctx.lookup ctx.sigTable ctx.envLoad
            ctx.signalFail ctx.execOutcome ctx.splayOffset ctx.shutdownDuringSplay
            [] 0 dirty
          .exit { st with dirtyEvents := dirty } r.actions
        else .exit { st with dirtyEvents := dirty } []
  | .renderEvent events =>
    let joinedSet := joinedMissing events
    let missing := st.missingDependencies.getD []
    let different :=
      joinedSet.length ≠ missing.length || joinedSet.any (fun k => !missing.contains k)
    if !different then .next st []
    else
      let st1 := { st with missingDependencies := some joinedSet }
      if !st1.outstandingEvent then .next { st1 with outstandingEvent := true } []
      else .next st1 []
  | .timerTick =>
    match st.missingDependencies with
    | none => .next st []
    | some deps =>
      .next { st with outstandingEvent := false }
        [.emitEvent ((NewTaskEvent .template).SetDisplayMessage (missingDepMsg deps))]

/-- The arms of the steady-state dispatcher select. -/
inductive RerenderMsg
  | shutdown
  | done
  | errClosed
  | errMsg (e : String)
  | templateRendered (events : RenderEvents)
  deriving DecidableEq

/-- One pass of the handleTemplateRerenders select loop; the loop state is
the handledRenders map. -/
def handleTemplateRerendersStep (ctx : TTMCtx) (allRenderedTime : Nat)
    (hr : HandledRenders) : RerenderMsg → StepOut HandledRenders
  | .shutdown => .exit hr []
  | .done => .exit hr []
  | .errClosed => .next hr []
  | .errMsg e => .next hr [templateFailedKill e]
  | .templateRendered events =>
    let r := onTemplateRendered ctx.lookup ctx.sigTable ctx.envLoad
      ctx.signalFail ctx.execOutcome ctx.splayOffset ctx.shutdownDuringSplay
      hr allRenderedTime events
    .next r.handledRenders r.actions

/-! ## maskProcessEnv -/

/-- The characters before the first '='. -/
def splitEqKey : List Char → List Char
  | [] => []
  | c :: cs => if c = '=' then [] else c :: splitEqKey cs

/-- `strings.SplitN(e, "=", 2)[0]`: the prefix of `e` before the first '='
(all of `e` when it has no '='). -/
def envKey (e : String) : String := ⟨splitEqKey e.data⟩

/-- maskProcessEnv: any process-environment key absent from the task env map
is forced to the empty string.  Go maps become functions into `Option`. -/
def maskProcessEnv (procEnvs : List String) (env : String → Option String) :
    String → Option String :=
  procEnvs.foldl (fun acc e =>
    if (acc (envKey e)).isSome then acc
    else fun k => if k = envKey e then some "" else acc k) env

/-! ## Construction: NewTaskTemplateManager, templateRunner,
parseTemplateConfigs -/

/-- The construction-time error values.  `sourceEscapesErr` and
`destEscapesErr` are the two distinct sandbox-escape errors of the source. -/
inductive TtmError
  | badConfig (msg : String)
  | badSignal (sig : String)
  | sourceEscapesErr
  | destEscapesErr
  | badPerms (perms : String)
  | waitInvalid
  | runnerFailed (msg : String)
  deriving DecidableEq

/-- The slice of client config the TTM reads. -/
structure ClientTemplateConfig where
  disableSandbox : Bool := false
  functionDenylist : List String := []
  deriving DecidableEq

/-- TaskTemplateManagerConfig, with collaborator pointers modelled by
presence flags. -/
structure TTMConfig where
  hasUnblockCh : Bool := true
  hasLifecycle : Bool := true
  hasEvents : Bool := true
  hasClientConfig : Bool := true
  templateConfig : ClientTemplateConfig := {}
  taskDir : String := "/alloc/task"
  maxTemplateEventRate : Nat := 3
  hasEnvBuilder : Bool := true
  templates : List Template := []
  deriving DecidableEq

/-- The mixed-Once check of Validate. -/
def onceMixed : List Template → Bool
  | [] => false
  | t :: rest => rest.any (fun u => u.once != t.once)

/-- TaskTemplateManagerConfig.Validate; `none` means valid. -/
def TTMConfig.Validate : Option TTMConfig → Option TtmError
  | none => some (.badConfig "Nil config passed")
  | some c =>
    if !c.hasUnblockCh then some (.badConfig "Invalid unblock channel given")
    else if !c.hasLifecycle then some (.badConfig "Invalid lifecycle hooks given")
    else if !c.hasEvents then some (.badConfig "Invalid event hook given")
    else if !c.hasClientConfig then some (.badConfig "Invalid client config given")
    else if c.taskDir = "" then some (.badConfig "Invalid task directory given")
    else if !c.hasEnvBuilder then some (.badConfig "Invalid task environment given")
    else if c.maxTemplateEventRate = 0 then
      some (.badConfig "Invalid max template event rate given")
    else if onceMixed c.templates then
      some (.badConfig "All templates should have same Once value")
    else none

/-- strconv.ParseUint(s, 8, 12): non-empty octal digits, value < 2^12. -/
def parseOctal12 (s : String) : Option Nat :=
  if s.isEmpty then none
  else s.data.foldl (fun acc c =>
    match acc with
    | none => none
    | some a =>
      if '0' ≤ c ∧ c ≤ '7' then
        let v := 8 * a + (c.toNat - '0'.toNat)
        if v < 4096 then some v else none
      else none) (some 0)

/-- The consul-template TemplateConfig fields parseTemplateConfigs sets. -/
structure CTConf where
  source : String := ""
  destination : String := ""
  contents : String := ""
  leftDelim : String := ""
  rightDelim : String := ""
  errMissingKey : Bool := false
  functionDenylist : List String := []
  sandboxPath : Option String := none
  waitCfg : Option (Bool × Option Nat × Option Nat) := none
  perms : Option Nat := none
  uid : Option Int := none
  gid : Option Int := none
  deriving DecidableEq

/-- The per-template body of parseTemplateConfigs.  `clientPath` is the
oracle for taskenv.TaskEnv.ClientPath (resolved path, escapes flag) and
`waitValid` for structs.WaitConfig.Validate. -/
def parseOneTemplate (sandboxEnabled : Bool)
    (clientPath : String → Bool → String × Bool)
    (waitValid : Option Nat × Option Nat → Bool)
    (taskDir : String) (denylist : List String)
    (tmpl : Template) : Except TtmError CTConf := do
  let src ←
    if tmpl.sourcePath ≠ "" then
      let pr := clientPath tmpl.sourcePath false
      if pr.2 && sandboxEnabled then Except.error TtmError.sourceEscapesErr
      else Except.ok pr.1
    else Except.ok ""
  let dest ←
    if tmpl.destPath ≠ "" then
      let pr := clientPath tmpl.destPath true
      if pr.2 && sandboxEnabled then Except.error TtmError.destEscapesErr
      else Except.ok pr.1
    else Except.ok ""
  let wait ←
    match tmpl.wait with
    | none => Except.ok none
    | some w =>
      if waitValid w then Except.ok (some (true, w.1, w.2))
      else Except.error TtmError.waitInvalid
  let perms ←
    if tmpl.perms ≠ "" then
      match parseOctal12 tmpl.perms with
      | none => Except.error (TtmError.badPerms tmpl.perms)
      | some v => Except.ok (some v)
    else Except.ok none
  Except.ok {
    source := src
    destination := dest
    contents := tmpl.embeddedTmpl
    leftDelim := tmpl.leftDelim
    rightDelim := tmpl.rightDelim
    errMissingKey := tmpl.errMissingKey
    functionDenylist := denylist
    sandboxPath := if sandboxEnabled then some taskDir else none
    waitCfg := wait
    perms := perms
    uid := match tmpl.uid with
      | some u => if u ≥ 0 then some u else none
      | none => none
    gid := match tmpl.gid with
      | some g => if g ≥ 0 then some g else none
      | none => none }

def parseTemplateConfigsGo (sandboxEnabled : Bool)
    (clientPath : String → Bool → String × Bool)
    (waitValid : Option Nat × Option Nat → Bool)
    (taskDir : String) (denylist : List String) :
    List Template → Except TtmError (List (CTConf × Template))
  | [] => .ok []
  | tmpl :: rest => do
    let ct ← parseOneTemplate sandboxEnabled clientPath waitValid taskDir denylist tmpl
    let others ← parseTemplateConfigsGo sandboxEnabled clientPath waitValid taskDir denylist rest
    .ok ((ct, tmpl) :: others)

/-- parseTemplateConfigs: sandboxEnabled := !DisableSandbox, then translate
each template in order. -/
def parseTemplateConfigs (clientPath : String → Bool → String × Bool)
    (waitValid : Option Nat × Option Nat → Bool)
    (c : TTMConfig) : Except TtmError (List (CTConf × Template)) :=
  parseTemplateConfigsGo (!c.templateConfig.disableSandbox) clientPath waitValid
    c.taskDir c.templateConfig.functionDenylist c.templates

/-- The consul-template runner handle: the env map handed to the engine and
the TemplateConfigMapping used to build the id lookup. -/
structure Runner where
  env : String → Option String := fun _ => none
  templateConfigMapping : List (String × List CTConf) := []

/-- `lookup[id] = append(lookup[id], ctmplMapping[ctmpl])`. -/
def buildLookup (idMap : List (String × List CTConf))
    (mapping : List (CTConf × Template)) : TemplateLookup :=
  idMap.map (fun p =>
    (p.1, p.2.map (fun ct =>
      ((mapping.find? (fun q => decide (q.1 = ct))).map Prod.snd).getD {})))

/-- templateRunner.  `newRunner` is the oracle for newRunnerConfig +
manager.NewRunner (engine construction); after it succeeds the runner's env
is overwritten with the masked task environment, exactly as in the source. -/
def templateRunner (clientPath : String → Bool → String × Bool)
    (waitValid : Option Nat × Option Nat → Bool)
    (newRunner : List (CTConf × Template) → Except TtmError Runner)
    (procEnvs : List String) (taskEnvAll : String → Option String)
    (c : TTMConfig) : Except TtmError (Option (Runner × TemplateLookup)) :=
  if c.templates.isEmpty then .ok none
  else do
    let ctmplMapping ← parseTemplateConfigs clientPath waitValid c
    let runner ← newRunner ctmplMapping
    let runner := { runner with env := maskProcessEnv procEnvs taskEnvAll }
    .ok (some (runner, buildLookup runner.templateConfigMapping ctmplMapping))

/-- The `for _, tmpl := range config.Templates` signal-parsing loop of
NewTaskTemplateManager.  `parseSignal` is the oracle for signals.Parse,
with signal tokens as `Nat`. -/
def parseSignals (parseSignal : String → Option Nat) :
    List Template → Except TtmError (List (String × Nat))
  | [] => .ok []
  | tmpl :: rest =>
    if tmpl.changeSignal = "" then parseSignals parseSignal rest
    else
      match parseSignal tmpl.changeSignal with
      | none => .error (.badSignal tmpl.changeSignal)
      | some sig => do
        let others ← parseSignals parseSignal rest
        .ok ((tmpl.changeSignal, sig) :: others)

/-- The constructed manager. -/
structure TTM where
  config : TTMConfig
  lookup : TemplateLookup
  runner : Option Runner
  signals : List (String × Nat)
  shutdown : Bool

def NewTaskTemplateManager (parseSignal : String → Option Nat)
    (clientPath : String → Bool → String × Bool)
    (waitValid : Option Nat × Option Nat → Bool)
    (newRunner : List (CTConf × Template) → Except TtmError Runner)
    (procEnvs : List String) (taskEnvAll : String → Option String)
    (c? : Option TTMConfig) : Except TtmError TTM :=
  match TTMConfig.Validate c? with
  | some e => .error e
  | none =>
    match c? with
    | none => .error (.badConfig "Nil config passed")
    | some c => do
      let sigs ← parseSignals parseSignal c.templates
      let rl ← templateRunner clientPath waitValid newRunner procEnvs taskEnvAll c
      .ok { config := c, lookup := (rl.map Prod.snd).getD [],
            runner := rl.map Prod.fst, signals := sigs, shutdown := false }

/-! ## Stop -/

/-- The shutdown bookkeeping of a running manager: the `shutdown` flag, and
observation counters for how often the shutdown channel was closed and how
often runner.Stop was invoked. -/
structure TTMRuntime where
  shutdown : Bool := false
  shutdownChCloses : Nat := 0
  runnerPresent : Bool := true
  runnerStops : Nat := 0
  deriving DecidableEq

/-- Stop(): under the shutdown lock, a no-op when already shut down;
otherwise close the shutdown channel, set the flag, and stop the runner if
there is one. -/
def TTMStop (tm : TTMRuntime) : TTMRuntime :=
  if tm.shutdown then tm
  else
    { tm with
      shutdown := true
      shutdownChCloses := tm.shutdownChCloses + 1
      runnerStops := if tm.runnerPresent then tm.runnerStops + 1 else tm.runnerStops }

/-! ## Derived characterizations of the dispatcher scan

These are specification-side restatements of what the scan loop computes;
the lemmas below prove them equal to runs of `scanEvents`. -/

/-- An event passes both dispatcher gates: its LastDidRender is after
allRenderedTime and after the handledRenders entry for its id. -/
def isFresh (hr : HandledRenders) (art : Nat) (p : String × RenderEvent) : Bool :=
  decide (art < p.2.lastDidRender) && decide (hrLookup hr p.1 < p.2.lastDidRender)

/-- The handledRenders updates the scan itself performs: every stale event
(allRenderedTime at or after LastDidRender) is committed at allRenderedTime. -/
def scanHr (art : Nat) (events : RenderEvents) (hr : HandledRenders) : HandledRenders :=
  events.foldl (fun hr p => if art ≥ p.2.lastDidRender then hrSet hr p.1 art else hr) hr

/-- Processing of a single fresh event: publish the env map, classify the
id's templates, append the id to handling. -/
def processFresh (lookup : TemplateLookup) (m : List (String × String))
    (st : ScanOut) (p : String × RenderEvent) : ScanOut :=
  let st1 := classifyTemplates { st with envActs := st.envActs ++ [.setTemplateEnv m] }
    ((lookup.lookup p.1).getD [])
  { st1 with handling := st1.handling ++ [p.1] }

/-- Aggregation over the fresh events of a batch. -/
def aggFresh (lookup : TemplateLookup) (m : List (String × String))
    (fresh : RenderEvents) (st : ScanOut) : ScanOut :=
  fresh.foldl (processFresh lookup m) st

/-- Maximum splay over a template list, noop templates excluded (they are
skipped by the Go `continue`). -/
def tmplsMaxSplay (ts : List Template) : Nat :=
  ts.foldl (fun a t =>
    match t.changeMode with
    | .noop => a
    | _ => max a t.splay) 0

/-- Maximum splay over the dirty (fresh, non-noop) templates of a batch. -/
def batchMaxSplay (lookup : TemplateLookup) (fresh : RenderEvents) : Nat :=
  fresh.foldl (fun a p => max a (tmplsMaxSplay ((lookup.lookup p.1).getD []))) 0

/-- The batch contains at least one actionable (fresh, non-noop) template. -/
def batchActionable (lookup : TemplateLookup) (hr : HandledRenders) (art : Nat)
    (events : RenderEvents) : Bool :=
  (events.filter (isFresh hr art)).any (fun p =>
    ((lookup.lookup p.1).getD []).any (fun t => !(t.changeMode == ChangeMode.noop)))

/-- Signal-set growth over one template list. -/
def sigFold (sn : List String) (ts : List Template) : List String :=
  ts.foldl (fun sn t =>
    if t.changeMode = ChangeMode.signal then insertName sn t.changeSignal else sn) sn

/-- Signal-set growth over the fresh events of a batch. -/
def sigFoldEvents (lookup : TemplateLookup) (sn : List String)
    (fresh : RenderEvents) : List String :=
  fresh.foldl (fun sn p => sigFold sn ((lookup.lookup p.1).getD [])) sn

/-- Scripts contributed by one template list. -/
def scriptsOf (ts : List Template) : List ChangeScript :=
  (ts.filter (fun t => t.changeMode == ChangeMode.script)).map (fun t => t.changeScript)

/-- Scripts contributed by the fresh events of a batch. -/
def scriptsOfEvents (lookup : TemplateLookup) (fresh : RenderEvents) : List ChangeScript :=
  (fresh.map (fun p => scriptsOf ((lookup.lookup p.1).getD []))).flatten

/-- Whether some fresh event carries a restart-mode template. -/
def restartOfEvents (lookup : TemplateLookup) (fresh : RenderEvents) : Bool :=
  fresh.any (fun p =>
    ((lookup.lookup p.1).getD []).any (fun t => t.changeMode == ChangeMode.restart))

/-! ## Lemmas about the association-list maps -/

theorem lookup_cons {β : Type} (a k : String) (b : β) (es : List (String × β)) :
    List.lookup a ((k, b) :: es) = if a = k then some b else List.lookup a es := by
  by_cases h : a = k
  · simp [List.lookup, h]
  · rw [if_neg h]
    show (match a == k with
      | true => some b
      | false => List.lookup a es) = List.lookup a es
    rw [show (a == k) = false from beq_eq_false_iff_ne.mpr h]

theorem hrLookup_hrSet_self (hr : HandledRenders) (id : String) (t : Nat) :
    hrLookup (hrSet hr id t) id = t := by
  simp [hrLookup, hrSet, lookup_cons]

theorem hrLookup_hrSet_ne (hr : HandledRenders) (id id' : String) (t : Nat)
    (h : id' ≠ id) : hrLookup (hrSet hr id t) id' = hrLookup hr id' := by
  simp [hrLookup, hrSet, lookup_cons, h]

theorem lookup_eq_of_mem_nodup {β : Type} :
    ∀ (l : List (String × β)) (id : String) (b : β),
    (id, b) ∈ l → (l.map Prod.fst).Nodup → l.lookup id = some b
  | [], _, _, hmem, _ => by simp at hmem
  | (k, v) :: es, id, b, hmem, hnd => by
    rcases List.mem_cons.mp hmem with heq | htail
    · cases heq
      simp [lookup_cons]
    · rw [List.map_cons, List.nodup_cons] at hnd
      have hk : id ≠ k := by
        intro h
        subst h
        exact hnd.1 (List.mem_map.mpr ⟨(id, b), htail, rfl⟩)
      rw [lookup_cons, if_neg hk]
      exact lookup_eq_of_mem_nodup es id b htail hnd.2

theorem evLdr_eq (events : RenderEvents) (id : String) (ev : RenderEvent)
    (hmem : (id, ev) ∈ events) (hnd : (events.map Prod.fst).Nodup) :
    evLdr events id = ev.lastDidRender := by
  simp [evLdr, lookup_eq_of_mem_nodup events id ev hmem hnd]

/-! ## Lemmas: classifyTemplate / classifyTemplates projections -/

attribute [ext] ScanOut

theorem classifyTemplate_hr (st : ScanOut) (t : Template) :
    (classifyTemplate st t).hr = st.hr := by
  cases ht : t.changeMode <;>
    simp [classifyTemplate, bumpSplay, ht] <;> split <;> rfl

theorem classifyTemplate_handling (st : ScanOut) (t : Template) :
    (classifyTemplate st t).handling = st.handling := by
  cases ht : t.changeMode <;>
    simp [classifyTemplate, bumpSplay, ht] <;> split <;> rfl

theorem classifyTemplate_envActs (st : ScanOut) (t : Template) :
    (classifyTemplate st t).envActs = st.envActs := by
  cases ht : t.changeMode <;>
    simp [classifyTemplate, bumpSplay, ht] <;> split <;> rfl

theorem classifyTemplate_restart (st : ScanOut) (t : Template) :
    (classifyTemplate st t).restart = (st.restart || (t.changeMode == ChangeMode.restart)) := by
  cases ht : t.changeMode <;>
    simp only [classifyTemplate, bumpSplay, ht] <;> (try split) <;> simp_all

theorem classifyTemplate_signalNames (st : ScanOut) (t : Template) :
    (classifyTemplate st t).signalNames =
      (if t.changeMode = ChangeMode.signal then insertName st.signalNames t.changeSignal
       else st.signalNames) := by
  cases ht : t.changeMode <;>
    simp only [classifyTemplate, bumpSplay, ht] <;> (try split) <;> simp_all

theorem classifyTemplate_scripts (st : ScanOut) (t : Template) :
    (classifyTemplate st t).scripts =
      (if t.changeMode == ChangeMode.script then st.scripts ++ [t.changeScript]
       else st.scripts) := by
  cases ht : t.changeMode <;>
    simp only [classifyTemplate, bumpSplay, ht] <;> (try split) <;> simp_all

theorem classifyTemplate_splay (st : ScanOut) (t : Template) :
    (classifyTemplate st t).splay =
      (match t.changeMode with
       | ChangeMode.noop => st.splay
       | _ => max st.splay t.splay) := by
  cases ht : t.changeMode <;>
    simp only [classifyTemplate, bumpSplay, ht] <;> (try split) <;> (try simp_all) <;> omega

theorem classifyTemplates_hr (st : ScanOut) (ts : List Template) :
    (classifyTemplates st ts).hr = st.hr := by
  induction ts generalizing st with
  | nil => rfl
  | cons t ts ih =>
    simp only [classifyTemplates, List.foldl_cons] at *
    rw [ih, classifyTemplate_hr]

theorem classifyTemplates_handling (st : ScanOut) (ts : List Template) :
    (classifyTemplates st ts).handling = st.handling := by
  induction ts generalizing st with
  | nil => rfl
  | cons t ts ih =>
    simp only [classifyTemplates, List.foldl_cons] at *
    rw [ih, classifyTemplate_handling]

theorem classifyTemplates_envActs (st : ScanOut) (ts : List Template) :
    (classifyTemplates st ts).envActs = st.envActs := by
  induction ts generalizing st with
  | nil => rfl
  | cons t ts ih =>
    simp only [classifyTemplates, List.foldl_cons] at *
    rw [ih, classifyTemplate_envActs]

theorem classifyTemplates_restart (st : ScanOut) (ts : List Template) :
    (classifyTemplates st ts).restart =
      (st.restart || ts.any (fun t => t.changeMode == ChangeMode.restart)) := by
  induction ts generalizing st with
  | nil => simp [classifyTemplates]
  | cons t ts ih =>
    simp only [classifyTemplates, List.foldl_cons] at *
    rw [ih, classifyTemplate_restart, List.any_cons, Bool.or_assoc]

theorem classifyTemplates_signalNames (st : ScanOut) (ts : List Template) :
    (classifyTemplates st ts).signalNames = sigFold st.signalNames ts := by
  induction ts generalizing st with
  | nil => rfl
  | cons t ts ih =>
    simp only [classifyTemplates, List.foldl_cons, sigFold] at *
    rw [ih, classifyTemplate_signalNames]

theorem classifyTemplates_scripts (st : ScanOut) (ts : List Template) :
    (classifyTemplates st ts).scripts = st.scripts ++ scriptsOf ts := by
  induction ts generalizing st with
  | nil => simp [classifyTemplates, scriptsOf]
  | cons t ts ih =>
    simp only [classifyTemplates, List.foldl_cons] at *
    rw [ih, classifyTemplate_scripts]
    by_cases ht : t.changeMode == ChangeMode.script
    · simp [scriptsOf, ht, List.filter_cons]
    · simp [scriptsOf, ht, List.filter_cons]

theorem foldl_max_shift (f : Template → Nat) :
    ∀ (ts : List Template) (a : Nat),
    ts.foldl (fun x t =>
      match t.changeMode with
      | ChangeMode.noop => x
      | _ => max x (f t)) a =
    max a (ts.foldl (fun x t =>
      match t.changeMode with
      | ChangeMode.noop => x
      | _ => max x (f t)) 0)
  | [], a => by simp
  | t :: ts, a => by
    have ih1 := foldl_max_shift f ts
    cases ht : t.changeMode <;> simp only [List.foldl_cons, ht]
    case noop => exact ih1 a
    all_goals (rw [ih1, ih1 (max 0 (f t))]; omega)

theorem classifyTemplates_splay (st : ScanOut) (ts : List Template) :
    (classifyTemplates st ts).splay = max st.splay (tmplsMaxSplay ts) := by
  induction ts generalizing st with
  | nil => simp [classifyTemplates, tmplsMaxSplay]
  | cons t ts ih =>
    simp only [classifyTemplates, List.foldl_cons, tmplsMaxSplay] at *
    rw [ih, classifyTemplate_splay]
    cases ht : t.changeMode <;>
      simp only [ht] <;>
      rw [foldl_max_shift (fun t => t.splay) ts (max 0 t.splay)] <;>
      omega

/-! ## Lemmas: processFresh / aggFresh projections -/

theorem processFresh_hr (lookup : TemplateLookup) (m : List (String × String))
    (st : ScanOut) (p : String × RenderEvent) :
    (processFresh lookup m st p).hr = st.hr := by
  simp [processFresh, classifyTemplates_hr]

theorem processFresh_handling (lookup : TemplateLookup) (m : List (String × String))
    (st : ScanOut) (p : String × RenderEvent) :
    (processFresh lookup m st p).handling = st.handling ++ [p.1] := by
  simp [processFresh, classifyTemplates_handling]

theorem processFresh_envActs (lookup : TemplateLookup) (m : List (String × String))
    (st : ScanOut) (p : String × RenderEvent) :
    (processFresh lookup m st p).envActs = st.envActs ++ [.setTemplateEnv m] := by
  simp [processFresh, classifyTemplates_envActs]

theorem processFresh_restart (lookup : TemplateLookup) (m : List (String × String))
    (st : ScanOut) (p : String × RenderEvent) :
    (processFresh lookup m st p).restart =
      (st.restart || ((lookup.lookup p.1).getD []).any
        (fun t => t.changeMode == ChangeMode.restart)) := by
  simp [processFresh, classifyTemplates_restart]

theorem processFresh_signalNames (lookup : TemplateLookup) (m : List (String × String))
    (st : ScanOut) (p : String × RenderEvent) :
    (processFresh lookup m st p).signalNames =
      sigFold st.signalNames ((lookup.lookup p.1).getD []) := by
  simp [processFresh, classifyTemplates_signalNames]

theorem processFresh_scripts (lookup : TemplateLookup) (m : List (String × String))
    (st : ScanOut) (p : String × RenderEvent) :
    (processFresh lookup m st p).scripts =
      st.scripts ++ scriptsOf ((lookup.lookup p.1).getD []) := by
  simp [processFresh, classifyTemplates_scripts]

theorem processFresh_splay (lookup : TemplateLookup) (m : List (String × String))
    (st : ScanOut) (p : String × RenderEvent) :
    (processFresh lookup m st p).splay =
      max st.splay (tmplsMaxSplay ((lookup.lookup p.1).getD [])) := by
  simp [processFresh, classifyTemplates_splay]

theorem aggFresh_hr (lookup : TemplateLookup) (m : List (String × String)) :
    ∀ (fresh : RenderEvents) (st : ScanOut), (aggFresh lookup m fresh st).hr = st.hr
  | [], st => rfl
  | p :: fresh, st => by
    show (aggFresh lookup m fresh (processFresh lookup m st p)).hr = st.hr
    rw [aggFresh_hr lookup m fresh, processFresh_hr]

theorem aggFresh_handling (lookup : TemplateLookup) (m : List (String × String)) :
    ∀ (fresh : RenderEvents) (st : ScanOut),
    (aggFresh lookup m fresh st).handling = st.handling ++ fresh.map Prod.fst
  | [], st => by simp [aggFresh]
  | p :: fresh, st => by
    show (aggFresh lookup m fresh (processFresh lookup m st p)).handling = _
    rw [aggFresh_handling lookup m fresh, processFresh_handling]
    simp

theorem aggFresh_envActs (lookup : TemplateLookup) (m : List (String × String)) :
    ∀ (fresh : RenderEvents) (st : ScanOut),
    (aggFresh lookup m fresh st).envActs =
      st.envActs ++ List.replicate fresh.length (Action.setTemplateEnv m)
  | [], st => by simp [aggFresh]
  | p :: fresh, st => by
    show (aggFresh lookup m fresh (processFresh lookup m st p)).envActs = _
    rw [aggFresh_envActs lookup m fresh, processFresh_envActs]
    simp [List.replicate_succ]

theorem aggFresh_restart (lookup : TemplateLookup) (m : List (String × String)) :
    ∀ (fresh : RenderEvents) (st : ScanOut),
    (aggFresh lookup m fresh st).restart = (st.restart || restartOfEvents lookup fresh)
  | [], st => by simp [aggFresh, restartOfEvents]
  | p :: fresh, st => by
    show (aggFresh lookup m fresh (processFresh lookup m st p)).restart = _
    rw [aggFresh_restart lookup m fresh, processFresh_restart]
    simp [restartOfEvents, Bool.or_assoc]

theorem aggFresh_signalNames (lookup : TemplateLookup) (m : List (String × String)) :
    ∀ (fresh : RenderEvents) (st : ScanOut),
    (aggFresh lookup m fresh st).signalNames = sigFoldEvents lookup st.signalNames fresh
  | [], st => rfl
  | p :: fresh, st => by
    show (aggFresh lookup m fresh (processFresh lookup m st p)).signalNames = _
    rw [aggFresh_signalNames lookup m fresh, processFresh_signalNames]
    rfl

theorem aggFresh_scripts (lookup : TemplateLookup) (m : List (String × String)) :
    ∀ (fresh : RenderEvents) (st : ScanOut),
    (aggFresh lookup m fresh st).scripts = st.scripts ++ scriptsOfEvents lookup fresh
  | [], st => by simp [aggFresh, scriptsOfEvents]
  | p :: fresh, st => by
    show (aggFresh lookup m fresh (processFresh lookup m st p)).scripts = _
    rw [aggFresh_scripts lookup m fresh, processFresh_scripts]
    simp [scriptsOfEvents]

theorem foldl_max_shift2 (g : String × RenderEvent → Nat) :
    ∀ (l : RenderEvents) (a : Nat),
    l.foldl (fun x y => max x (g y)) a = max a (l.foldl (fun x y => max x (g y)) 0)
  | [], a => by simp
  | p :: l, a => by
    simp only [List.foldl_cons]
    rw [foldl_max_shift2 g l, foldl_max_shift2 g l (max 0 (g p))]
    omega

theorem aggFresh_splay (lookup : TemplateLookup) (m : List (String × String)) :
    ∀ (fresh : RenderEvents) (st : ScanOut),
    (aggFresh lookup m fresh st).splay = max st.splay (batchMaxSplay lookup fresh)
  | [], st => by simp [aggFresh, batchMaxSplay]
  | p :: fresh, st => by
    show (aggFresh lookup m fresh (processFresh lookup m st p)).splay = _
    rw [aggFresh_splay lookup m fresh, processFresh_splay]
    simp only [batchMaxSplay, List.foldl_cons]
    rw [foldl_max_shift2 (fun q => tmplsMaxSplay ((lookup.lookup q.1).getD [])) fresh
      (max 0 (tmplsMaxSplay ((lookup.lookup p.1).getD [])))]
    omega

/-! ## The scan characterization -/

theorem isFresh_hrSet (hr : HandledRenders) (art t : Nat) (id : String)
    (p : String × RenderEvent) (h : p.1 ≠ id) :
    isFresh (hrSet hr id t) art p = isFresh hr art p := by
  simp [isFresh, hrLookup_hrSet_ne hr id p.1 t h]

theorem aggFresh_setHr (lookup : TemplateLookup) (m : List (String × String))
    (fresh : RenderEvents) (st : ScanOut) (h H : HandledRenders) :
    ({ aggFresh lookup m fresh { st with hr := h } with hr := H } : ScanOut) =
    { aggFresh lookup m fresh st with hr := H } := by
  simp only [aggFresh_handling, aggFresh_signalNames, aggFresh_scripts, aggFresh_restart,
    aggFresh_splay, aggFresh_envActs]

/-- A run of the dispatcher's scan loop over a batch whose ids are all known
and whose env harvest succeeds: the handledRenders updates are exactly the
stale-event commits, and everything else is the aggregation over the fresh
events. -/
theorem scanEvents_clean (lookup : TemplateLookup) (m : List (String × String)) (art : Nat) :
    ∀ (events : RenderEvents) (st : ScanOut),
    (∀ p ∈ events, (lookup.lookup p.1).isSome) →
    (events.map Prod.fst).Nodup →
    scanEvents lookup (.ok m) art events st =
      .done { aggFresh lookup m (events.filter (isFresh st.hr art)) st with
              hr := scanHr art events st.hr }
  | [], st, _, _ => by
    simp [scanEvents, aggFresh, scanHr]
  | (id, ev) :: rest, st, hids, hnd => by
    have hids' : ∀ p ∈ rest, (lookup.lookup p.1).isSome :=
      fun p hp => hids p (List.mem_cons_of_mem _ hp)
    have hndr : (rest.map Prod.fst).Nodup := by
      rw [List.map_cons, List.nodup_cons] at hnd
      exact hnd.2
    have hid_notin : id ∉ rest.map Prod.fst := by
      rw [List.map_cons, List.nodup_cons] at hnd
      exact hnd.1
    by_cases h1 : art ≥ ev.lastDidRender
    · rw [show scanEvents lookup (.ok m) art ((id, ev) :: rest) st =
          scanEvents lookup (.ok m) art rest { st with hr := hrSet st.hr id art } from by
        simp [scanEvents, h1]]
      rw [scanEvents_clean lookup m art rest _ hids' hndr]
      have hfilter : rest.filter (isFresh (hrSet st.hr id art) art) =
          rest.filter (isFresh st.hr art) := by
        apply List.filter_congr
        intro p hp
        exact isFresh_hrSet st.hr art art id p
          (fun he => hid_notin (he ▸ List.mem_map.mpr ⟨p, hp, rfl⟩))
      have hhead : isFresh st.hr art (id, ev) = false := by
        simp only [isFresh]
        simp
        omega
      rw [show ({ st with hr := hrSet st.hr id art } : ScanOut).hr = hrSet st.hr id art from rfl]
      rw [hfilter]
      rw [show ((id, ev) :: rest).filter (isFresh st.hr art) =
          rest.filter (isFresh st.hr art) from by simp [List.filter_cons, hhead]]
      rw [show scanHr art ((id, ev) :: rest) st.hr =
          scanHr art rest (hrSet st.hr id art) from by simp [scanHr, h1]]
      rw [aggFresh_setHr]
    · by_cases h2 : hrLookup st.hr id ≥ ev.lastDidRender
      · rw [show scanEvents lookup (.ok m) art ((id, ev) :: rest) st =
            scanEvents lookup (.ok m) art rest st from by
          simp [scanEvents, h1, h2]]
        rw [scanEvents_clean lookup m art rest st hids' hndr]
        have hhead : isFresh st.hr art (id, ev) = false := by
          simp only [isFresh]
          simp
          omega
        rw [show ((id, ev) :: rest).filter (isFresh st.hr art) =
            rest.filter (isFresh st.hr art) from by simp [List.filter_cons, hhead]]
        rw [show scanHr art ((id, ev) :: rest) st.hr = scanHr art rest st.hr from by
          simp [scanHr, h1]]
      · obtain ⟨tmpls, htm⟩ : ∃ tmpls, lookup.lookup id = some tmpls :=
          Option.isSome_iff_exists.mp (hids (id, ev) (List.mem_cons_self _ _))
        have hstep : scanEvents lookup (.ok m) art ((id, ev) :: rest) st =
            scanEvents lookup (.ok m) art rest (processFresh lookup m st (id, ev)) := by
          simp [scanEvents, h1, h2, htm, processFresh]
        rw [hstep, scanEvents_clean lookup m art rest _ hids' hndr, processFresh_hr]
        have hhead : isFresh st.hr art (id, ev) = true := by
          simp only [isFresh]
          simp
          omega
        rw [show ((id, ev) :: rest).filter (isFresh st.hr art) =
            (id, ev) :: rest.filter (isFresh st.hr art) from by simp [List.filter_cons, hhead]]
        rw [show scanHr art ((id, ev) :: rest) st.hr = scanHr art rest st.hr from by
          simp [scanHr, h1]]
        rfl

/-! ## handledRenders bookkeeping lemmas -/

theorem hrLookup_scanHr (art : Nat) :
    ∀ (events : RenderEvents) (hr : HandledRenders) (id : String),
    (∀ p ∈ events, p.1 = id → ¬ art ≥ p.2.lastDidRender) →
    hrLookup (scanHr art events hr) id = hrLookup hr id
  | [], _, _, _ => rfl
  | p :: rest, hr, id, h => by
    by_cases h1 : art ≥ p.2.lastDidRender
    · have hne : p.1 ≠ id := fun he => h p (List.mem_cons_self _ _) he h1
      rw [show scanHr art (p :: rest) hr = scanHr art rest (hrSet hr p.1 art) from by
        simp [scanHr, h1]]
      rw [hrLookup_scanHr art rest _ id (fun q hq => h q (List.mem_cons_of_mem _ hq))]
      exact hrLookup_hrSet_ne hr p.1 id art (Ne.symm hne)
    · rw [show scanHr art (p :: rest) hr = scanHr art rest hr from by simp [scanHr, h1]]
      exact hrLookup_scanHr art rest hr id (fun q hq => h q (List.mem_cons_of_mem _ hq))

theorem hrLookup_commitHandled (events : RenderEvents) :
    ∀ (handling : List String) (hr : HandledRenders) (id : String),
    hrLookup (commitHandled events handling hr) id =
      (if id ∈ handling then evLdr events id else hrLookup hr id)
  | [], hr, id => by simp [commitHandled]
  | h :: t, hr, id => by
    rw [show commitHandled events (h :: t) hr =
        commitHandled events t (hrSet hr h (evLdr events h)) from rfl]
    rw [hrLookup_commitHandled events t _ id]
    by_cases hid : id ∈ t
    · simp [hid]
    · by_cases hh : id = h
      · subst hh
        simp [hid, hrLookup_hrSet_self]
      · simp [hid, hh, hrLookup_hrSet_ne hr h id _ hh]

/-! ## Emptiness characterizations of the batch aggregates -/

theorem insertName_ne_nil (l : List String) (s : String) : insertName l s ≠ [] := by
  unfold insertName
  split
  · exact List.ne_nil_of_mem (by assumption)
  · simp

theorem sigFold_isEmpty (ts : List Template) : ∀ (sn : List String),
    (sigFold sn ts).isEmpty =
      (sn.isEmpty && !ts.any (fun t => t.changeMode == ChangeMode.signal)) := by
  induction ts with
  | nil => intro sn; simp [sigFold]
  | cons t ts ih =>
    intro sn
    rw [show sigFold sn (t :: ts) =
        sigFold (if t.changeMode = ChangeMode.signal then insertName sn t.changeSignal else sn) ts
      from rfl]
    rw [ih]
    by_cases hm : t.changeMode = ChangeMode.signal
    · simp [hm, List.isEmpty_iff, insertName_ne_nil]
    · have hf : (t.changeMode == ChangeMode.signal) = false := by simp [hm]
      simp [hm, List.any_cons, hf]

theorem sigFoldEvents_isEmpty (lookup : TemplateLookup) :
    ∀ (fresh : RenderEvents) (sn : List String),
    (sigFoldEvents lookup sn fresh).isEmpty =
      (sn.isEmpty && !fresh.any (fun p =>
        ((lookup.lookup p.1).getD []).any (fun t => t.changeMode == ChangeMode.signal)))
  | [], sn => by simp [sigFoldEvents]
  | p :: fresh, sn => by
    rw [show sigFoldEvents lookup sn (p :: fresh) =
        sigFoldEvents lookup (sigFold sn ((lookup.lookup p.1).getD [])) fresh from rfl]
    rw [sigFoldEvents_isEmpty lookup fresh, sigFold_isEmpty]
    cases hsn : sn.isEmpty <;> simp [List.any_cons]

theorem scriptsOf_isEmpty (ts : List Template) :
    (scriptsOf ts).isEmpty = !ts.any (fun t => t.changeMode == ChangeMode.script) := by
  induction ts with
  | nil => simp [scriptsOf]
  | cons t ts ih =>
    by_cases hc : (t.changeMode == ChangeMode.script) = true
    · rw [show scriptsOf (t :: ts) = t.changeScript :: scriptsOf ts from by
        simp [scriptsOf, List.filter_cons, hc]]
      simp [List.any_cons, hc]
    · have hf : (t.changeMode == ChangeMode.script) = false := by simpa using hc
      rw [show scriptsOf (t :: ts) = scriptsOf ts from by
        simp [scriptsOf, List.filter_cons, hf]]
      simp [List.any_cons, hf, ih]

theorem scriptsOfEvents_isEmpty (lookup : TemplateLookup) :
    ∀ (fresh : RenderEvents),
    (scriptsOfEvents lookup fresh).isEmpty =
      !fresh.any (fun p =>
        ((lookup.lookup p.1).getD []).any (fun t => t.changeMode == ChangeMode.script))
  | [] => by simp [scriptsOfEvents]
  | p :: fresh => by
    rw [show scriptsOfEvents lookup (p :: fresh) =
        scriptsOf ((lookup.lookup p.1).getD []) ++ scriptsOfEvents lookup fresh from by
      simp [scriptsOfEvents]]
    rw [show ∀ (a b : List ChangeScript), (a ++ b).isEmpty = (a.isEmpty && b.isEmpty) from by
      intro a b
      cases a <;> simp]
    rw [scriptsOf_isEmpty, scriptsOfEvents_isEmpty lookup fresh]
    simp [List.any_cons]

/-! ## Dispatcher characterization -/

/-- onTemplateRendered on a clean batch (all ids known, env harvest ok),
rewritten in terms of the fresh-event aggregates. -/
theorem onTemplateRendered_clean (lookup : TemplateLookup) (sigTable : List (String × Nat))
    (m : List (String × String)) (sf : String → Bool) (eo : ChangeScript → ExecResult)
    (so : Nat → Nat) (sd : Bool) (hr0 : HandledRenders) (art : Nat) (events : RenderEvents)
    (hids : ∀ p ∈ events, (lookup.lookup p.1).isSome)
    (hnd : (events.map Prod.fst).Nodup) :
    onTemplateRendered lookup sigTable (.ok m) sf eo so sd hr0 art events =
      (let fresh := events.filter (isFresh hr0 art)
       let restartB := restartOfEvents lookup fresh
       let sigs := sigFoldEvents lookup [] fresh
       let scripts := scriptsOfEvents lookup fresh
       let splay := batchMaxSplay lookup fresh
       let envActs := List.replicate fresh.length (Action.setTemplateEnv m)
       let shouldHandle := restartB || !sigs.isEmpty || !scripts.isEmpty
       if !shouldHandle then
         { handledRenders := scanHr art events hr0, actions := envActs }
       else if splay ≠ 0 && sd then
         { handledRenders := scanHr art events hr0, actions := envActs }
       else
         { handledRenders := commitHandled events (fresh.map Prod.fst) (scanHr art events hr0)
           actions := envActs ++
             (if restartB then [restartAction]
              else handleChangeModeSignal sigTable sf sigs ++ handleChangeModeScript eo scripts)
           delay := if splay ≠ 0 then some (so splay) else none }) := by
  unfold onTemplateRendered
  rw [scanEvents_clean lookup m art events { hr := hr0 } hids hnd]
  simp only [aggFresh_handling, aggFresh_signalNames, aggFresh_scripts, aggFresh_restart,
    aggFresh_splay, aggFresh_envActs]
  simp

/-! ## Actionability helpers -/

theorem shouldHandle_of_actionable (lookup : TemplateLookup) (fresh : RenderEvents)
    (h : fresh.any (fun p => ((lookup.lookup p.1).getD []).any
      (fun t => !(t.changeMode == ChangeMode.noop))) = true) :
    (restartOfEvents lookup fresh || !(sigFoldEvents lookup [] fresh).isEmpty ||
      !(scriptsOfEvents lookup fresh).isEmpty) = true := by
  simp only [List.any_eq_true] at h
  obtain ⟨p, hp, t, htm, hmode⟩ := h
  rw [sigFoldEvents_isEmpty, scriptsOfEvents_isEmpty]
  cases hm : t.changeMode
  · rw [hm] at hmode
    simp at hmode
  · have hsig : fresh.any (fun p => ((lookup.lookup p.1).getD []).any
        (fun t => t.changeMode == ChangeMode.signal)) = true := by
      simp only [List.any_eq_true]
      exact ⟨p, hp, t, htm, by simp [hm]⟩
    simp [hsig]
  · have hres : restartOfEvents lookup fresh = true := by
      simp only [restartOfEvents, List.any_eq_true]
      exact ⟨p, hp, t, htm, by simp [hm]⟩
    simp [hres]
  · have hscr : fresh.any (fun p => ((lookup.lookup p.1).getD []).any
        (fun t => t.changeMode == ChangeMode.script)) = true := by
      simp only [List.any_eq_true]
      exact ⟨p, hp, t, htm, by simp [hm]⟩
    simp [hscr]

theorem tmplsMaxSplay_pos (ts : List Template) (h : tmplsMaxSplay ts ≠ 0) :
    ts.any (fun t => !(t.changeMode == ChangeMode.noop)) = true := by
  induction ts with
  | nil => simp [tmplsMaxSplay] at h
  | cons t ts ih =>
    rw [show tmplsMaxSplay (t :: ts) =
        max (match t.changeMode with
             | ChangeMode.noop => 0
             | _ => max 0 t.splay) (tmplsMaxSplay ts) from by
      simp only [tmplsMaxSplay, List.foldl_cons]
      exact foldl_max_shift (fun t => t.splay) ts _] at h
    by_cases h1 : tmplsMaxSplay ts = 0
    · rw [h1] at h
      cases hm : t.changeMode
      · rw [hm] at h
        simp at h
      all_goals simp [List.any_cons, hm]
    · simp [List.any_cons, ih h1]

theorem batchMaxSplay_pos (lookup : TemplateLookup) (fresh : RenderEvents)
    (h : batchMaxSplay lookup fresh ≠ 0) :
    fresh.any (fun p => ((lookup.lookup p.1).getD []).any
      (fun t => !(t.changeMode == ChangeMode.noop))) = true := by
  induction fresh with
  | nil => simp [batchMaxSplay] at h
  | cons p fresh ih =>
    rw [show batchMaxSplay lookup (p :: fresh) =
        max (max 0 (tmplsMaxSplay ((lookup.lookup p.1).getD [])))
          (batchMaxSplay lookup fresh) from by
      simp only [batchMaxSplay, List.foldl_cons]
      exact foldl_max_shift2 (fun q => tmplsMaxSplay ((lookup.lookup q.1).getD [])) fresh _] at h
    by_cases h1 : batchMaxSplay lookup fresh = 0
    · have hp : tmplsMaxSplay ((lookup.lookup p.1).getD []) ≠ 0 := by omega
      simp [List.any_cons, tmplsMaxSplay_pos _ hp]
    · simp [List.any_cons, ih h1]

/-! ## Claim C8: Stop is idempotent -/

theorem TTMStop_idem (tm : TTMRuntime) : TTMStop (TTMStop tm) = TTMStop tm := by
  by_cases h : tm.shutdown <;> simp [TTMStop, h]

theorem TTMStop_iterate (tm : TTMRuntime) : ∀ (N : Nat), 1 ≤ N → TTMStop^[N] tm = TTMStop tm
  | 1, _ => rfl
  | (n + 2), _ => by
    rw [Function.iterate_succ_apply', TTMStop_iterate tm (n + 1) (by omega), TTMStop_idem]

/-- C8: calling Stop() N ≥ 1 times on a manager that has not yet been shut
down closes the shutdown channel exactly once and stops the rendering engine
exactly once (when a runner exists); every call after the first is a no-op. -/
theorem c8_stop_idempotent (tm : TTMRuntime) (N : Nat) (h1 : 1 ≤ N)
    (h2 : tm.shutdown = false) :
    (TTMStop^[N] tm).shutdownChCloses = tm.shutdownChCloses + 1 ∧
    (tm.runnerPresent = true → (TTMStop^[N] tm).runnerStops = tm.runnerStops + 1) ∧
    (tm.runnerPresent = false → (TTMStop^[N] tm).runnerStops = tm.runnerStops) ∧
    (∀ M, 1 ≤ M → TTMStop^[M] tm = TTMStop tm) := by
  rw [TTMStop_iterate tm N h1]
  refine ⟨by simp [TTMStop, h2], ?_, ?_, TTMStop_iterate tm⟩
  · intro hrp
    simp [TTMStop, h2, hrp]
  · intro hrp
    simp [TTMStop, h2, hrp]

theorem c8_stop_idempotent_witness :
    (TTMStop^[3] ({} : TTMRuntime)).shutdownChCloses = 0 + 1 ∧
    (TTMStop^[3] ({} : TTMRuntime)).runnerStops = 0 + 1 := by
  have h := c8_stop_idempotent {} 3 (by decide) rfl
  exact ⟨h.1, h.2.1 rfl⟩

/-! ## Claim C7: engine errors Kill but never exit the loops -/

/-- C7: in both the first-render gate and the steady-state dispatcher, an
error received on the engine error channel produces exactly one lifecycle
Kill whose TaskKilling event carries the error text and the fails-task flag,
and the loop continues; the steady-state loop exits only on the shutdown or
done channels, and the gate exits only on shutdown or on the all-rendered
path of the template-rendered channel. -/
theorem c7_engine_error_kill_no_exit (ctx : TTMCtx) (st : FirstRenderState)
    (art : Nat) (hr : HandledRenders) (e : String) :
    handleFirstRenderStep ctx st (.errMsg e) =
      .next st [.kill ((NewTaskEvent .taskKilling).SetFailsTask.SetDisplayMessage
        ("Template failed: " ++ e))] ∧
    handleTemplateRerendersStep ctx art hr (.errMsg e) =
      .next hr [.kill ((NewTaskEvent .taskKilling).SetFailsTask.SetDisplayMessage
        ("Template failed: " ++ e))] ∧
    (∀ msg s acts, handleTemplateRerendersStep ctx art hr msg = .exit s acts →
      msg = RerenderMsg.shutdown ∨ msg = RerenderMsg.done) ∧
    (∀ msg s acts, handleFirstRenderStep ctx st msg = .exit s acts →
      msg = FirstRenderMsg.shutdown ∨ ∃ evs, msg = FirstRenderMsg.templateRendered evs) := by
  refine ⟨rfl, rfl, ?_, ?_⟩
  · intro msg s acts h
    cases msg
    case shutdown => exact Or.inl rfl
    case done => exact Or.inr rfl
    case errClosed => exact absurd h (by simp [handleTemplateRerendersStep])
    case errMsg e1 => exact absurd h (by simp [handleTemplateRerendersStep])
    case templateRendered evs => exact absurd h (by simp [handleTemplateRerendersStep])
  · intro msg s acts h
    cases msg
    case shutdown => exact Or.inl rfl
    case errClosed => exact absurd h (by simp [handleFirstRenderStep])
    case errMsg e1 => exact absurd h (by simp [handleFirstRenderStep])
    case templateRendered evs => exact Or.inr ⟨evs, rfl⟩
    case renderEvent evs =>
      exfalso
      simp only [handleFirstRenderStep] at h
      split at h
      · simp at h
      · split at h <;> simp at h
    case timerTick =>
      exfalso
      simp only [handleFirstRenderStep] at h
      split at h <;> simp at h

theorem c7_engine_error_kill_no_exit_witness :
    handleFirstRenderStep {} {} (.errMsg "boom") =
      .next {} [.kill ((NewTaskEvent .taskKilling).SetFailsTask.SetDisplayMessage
        ("Template failed: " ++ "boom"))] :=
  (c7_engine_error_kill_no_exit {} {} 0 [] "boom").1

/-! ## Claim C5: missing-dependency telemetry formatting -/

theorem leChars_total : ∀ (as bs : List Char), leChars as bs = true ∨ leChars bs as = true
  | [], bs => Or.inl rfl
  | a :: as, [] => Or.inr rfl
  | a :: as, b :: bs => by
    by_cases h1 : a.toNat < b.toNat
    · exact Or.inl (by simp [leChars, h1])
    · by_cases h2 : b.toNat < a.toNat
      · exact Or.inr (by simp [leChars, h2, h1])
      · rcases leChars_total as bs with h | h
        · exact Or.inl (by simp [leChars, h1, h2, h])
        · exact Or.inr (by simp [leChars, h1, h2, h])

theorem leChars_trans : ∀ (as bs cs : List Char),
    leChars as bs = true → leChars bs cs = true → leChars as cs = true
  | [], _, _, _, _ => rfl
  | a :: as, [], cs, hab, _ => by simp [leChars] at hab
  | a :: as, b :: bs, [], _, hbc => by simp [leChars] at hbc
  | a :: as, b :: bs, c :: cs, hab, hbc => by
    simp only [leChars] at hab hbc ⊢
    by_cases h1 : a.toNat < b.toNat
    · by_cases h2 : b.toNat < c.toNat
      · simp [show a.toNat < c.toNat by omega]
      · by_cases h3 : c.toNat < b.toNat
        · simp [h2, h3] at hbc
        · simp [show a.toNat < c.toNat by omega]
    · by_cases h2 : b.toNat < a.toNat
      · simp [h1, h2] at hab
      · by_cases h3 : b.toNat < c.toNat
        · simp [show a.toNat < c.toNat by omega]
        · by_cases h4 : c.toNat < b.toNat
          · simp [h3, h4] at hbc
          · simp [h1, h2] at hab
            simp [h3, h4] at hbc
            simp [show ¬ a.toNat < c.toNat by omega, show ¬ c.toNat < a.toNat by omega]
            exact leChars_trans as bs cs hab hbc

instance : IsTotal String (fun a b => strLe a b = true) :=
  ⟨fun a b => leChars_total a.data b.data⟩

instance : IsTrans String (fun a b => strLe a b = true) :=
  ⟨fun a b c => leChars_trans a.data b.data c.data⟩

/-- C5: at a timer tick with a non-nil missing set, exactly one telemetry
event is emitted; its message is "Missing: " followed by the sorted member
names joined by ", ", truncated past 3 names to the first 3 followed by
"and N more". The sort used is a sorted permutation of the set. -/
theorem c5_missing_deps_message (ctx : TTMCtx) (st : FirstRenderState) (deps : List String)
    (h : st.missingDependencies = some deps) :
    handleFirstRenderStep ctx st .timerTick =
      .next { st with outstandingEvent := false }
        [.emitEvent ((NewTaskEvent .template).SetDisplayMessage (missingDepMsg deps))] ∧
    List.Sorted (fun a b => strLe a b = true) (sortStrings deps) ∧
    List.Perm (sortStrings deps) deps ∧
    (deps.length > 3 →
      missingDepMsg deps = "Missing: " ++ String.intercalate ", "
        ((sortStrings deps).take 3 ++
          ["and " ++ toString (deps.length - 3) ++ " more"])) ∧
    (deps.length ≤ 3 →
      missingDepMsg deps = "Missing: " ++ String.intercalate ", " (sortStrings deps)) := by
  have hperm : List.Perm (sortStrings deps) deps :=
    List.perm_insertionSort (fun a b => strLe a b = true) deps
  have hlen : (sortStrings deps).length = deps.length := hperm.length_eq
  refine ⟨by simp [handleFirstRenderStep, h],
    List.sorted_insertionSort (fun a b => strLe a b = true) deps, hperm, ?_, ?_⟩
  · intro hgt
    simp [missingDepMsg, missingDepEventLimit, hlen, hgt]
  · intro hle
    have hc2 : ¬ (missingDepEventLimit < deps.length) := by
      simp only [missingDepEventLimit]
      omega
    simp [missingDepMsg, hlen, hc2]

theorem c5_missing_deps_message_witness :
    handleFirstRenderStep {} { missingDependencies := some ["d", "e", "a", "c", "b"] } .timerTick =
      .next { missingDependencies := some ["d", "e", "a", "c", "b"], outstandingEvent := false }
        [.emitEvent ((NewTaskEvent .template).SetDisplayMessage
          "Missing: a, b, c, and 2 more")] := by
  have h := (c5_missing_deps_message {} { missingDependencies := some ["d", "e", "a", "c", "b"] }
    ["d", "e", "a", "c", "b"] rfl).1
  rw [h]
  decide

/-! ## Claim C2: environment masking -/

theorem maskProcessEnv_mono : ∀ (procEnvs : List String) (env : String → Option String)
    (k v : String), env k = some v → maskProcessEnv procEnvs env k = some v
  | [], _, _, _, h => h
  | e :: rest, env, k, v, h => by
    rw [show maskProcessEnv (e :: rest) env =
        maskProcessEnv rest
          (if (env (envKey e)).isSome then env
           else fun k1 => if k1 = envKey e then some "" else env k1) from rfl]
    by_cases hs : (env (envKey e)).isSome
    · rw [if_pos hs]
      exact maskProcessEnv_mono rest env k v h
    · rw [if_neg hs]
      apply maskProcessEnv_mono rest _ k v
      by_cases hk : k = envKey e
      · rw [← hk] at hs
        rw [h] at hs
        simp at hs
      · simp [hk, h]

theorem maskProcessEnv_none_inv : ∀ (procEnvs : List String) (env : String → Option String)
    (k : String), env k = none →
    maskProcessEnv procEnvs env k = none ∨ maskProcessEnv procEnvs env k = some ""
  | [], _, _, h => Or.inl h
  | e :: rest, env, k, h => by
    rw [show maskProcessEnv (e :: rest) env =
        maskProcessEnv rest
          (if (env (envKey e)).isSome then env
           else fun k1 => if k1 = envKey e then some "" else env k1) from rfl]
    by_cases hs : (env (envKey e)).isSome
    · rw [if_pos hs]
      exact maskProcessEnv_none_inv rest env k h
    · rw [if_neg hs]
      by_cases hk : k = envKey e
      · exact Or.inr (maskProcessEnv_mono rest _ k "" (by simp [hk]))
      · exact maskProcessEnv_none_inv rest _ k (by simp [hk, h])

theorem maskProcessEnv_masks : ∀ (procEnvs : List String) (env : String → Option String)
    (e : String), e ∈ procEnvs → env (envKey e) = none →
    maskProcessEnv procEnvs env (envKey e) = some ""
  | [], _, e, he, _ => absurd he (List.not_mem_nil e)
  | e1 :: rest, env, e, he, h => by
    rw [show maskProcessEnv (e1 :: rest) env =
        maskProcessEnv rest
          (if (env (envKey e1)).isSome then env
           else fun k1 => if k1 = envKey e1 then some "" else env k1) from rfl]
    rcases List.mem_cons.mp he with heq | ht
    · subst heq
      rw [if_neg (by simp [h])]
      exact maskProcessEnv_mono rest _ (envKey e) "" (by simp)
    · by_cases hs : (env (envKey e1)).isSome
      · rw [if_pos hs]
        exact maskProcessEnv_masks rest env e ht h
      · rw [if_neg hs]
        by_cases hk : envKey e = envKey e1
        · exact maskProcessEnv_mono rest _ (envKey e) "" (by simp [hk])
        · exact maskProcessEnv_masks rest _ e ht (by simp [hk, h])

/-- C2: the environment map handed to the rendering engine is exactly
maskProcessEnv of the task env: every task-defined variable keeps its
task-defined value, every process-environment variable absent from the task
env is mapped to the empty string, and a variable the task does not define
is never seen with any value other than the empty string. -/
theorem c2_env_masking (procEnvs : List String) (env : String → Option String) :
    (∀ k v, env k = some v → maskProcessEnv procEnvs env k = some v) ∧
    (∀ e ∈ procEnvs, env (envKey e) = none →
      maskProcessEnv procEnvs env (envKey e) = some "") ∧
    (∀ k, env k = none →
      maskProcessEnv procEnvs env k = none ∨ maskProcessEnv procEnvs env k = some "") ∧
    (∀ (clientPath : String → Bool → String × Bool)
       (waitValid : Option Nat × Option Nat → Bool)
       (newRunner : List (CTConf × Template) → Except TtmError Runner)
       (c : TTMConfig) (r : Runner) (lk : TemplateLookup),
      templateRunner clientPath waitValid newRunner procEnvs env c = .ok (some (r, lk)) →
      r.env = maskProcessEnv procEnvs env) := by
  refine ⟨maskProcessEnv_mono procEnvs env, maskProcessEnv_masks procEnvs env,
    maskProcessEnv_none_inv procEnvs env, ?_⟩
  intro clientPath waitValid newRunner c r lk h
  unfold templateRunner at h
  by_cases he : c.templates.isEmpty
  · simp [he] at h
  · rw [if_neg he] at h
    cases hp : parseTemplateConfigs clientPath waitValid c with
    | error e1 => simp [hp, Bind.bind, Except.bind] at h
    | ok cm =>
      cases hn : newRunner cm with
      | error e2 => simp [hp, hn, Bind.bind, Except.bind] at h
      | ok rn =>
        simp [hp, hn, Bind.bind, Except.bind, Except.ok.injEq, Option.some.injEq] at h
        rw [← h.1]

theorem c2_env_masking_witness :
    maskProcessEnv ["PATH=/usr/bin", "HOME=/root"]
      (fun k => if k = "FOO" then some "bar" else none) "PATH" = some "" ∧
    maskProcessEnv ["PATH=/usr/bin", "HOME=/root"]
      (fun k => if k = "FOO" then some "bar" else none) "FOO" = some "bar" := by
  have h := c2_env_masking ["PATH=/usr/bin", "HOME=/root"]
    (fun k => if k = "FOO" then some "bar" else none)
  refine ⟨?_, h.1 "FOO" "bar" (by decide)⟩
  have h2 := h.2.1 "PATH=/usr/bin" (by decide) (by decide)
  rw [show envKey "PATH=/usr/bin" = "PATH" from by decide] at h2
  exact h2

/-! ## Claim C9: signal parsing is keyed on ChangeSignal being non-empty -/

theorem parseSignals_ok_of_parseable (parseSignal : String → Option Nat) :
    ∀ (ts : List Template),
    (∀ t ∈ ts, t.changeSignal ≠ "" → (parseSignal t.changeSignal).isSome) →
    ∃ sigs, parseSignals parseSignal ts = .ok sigs
  | [], _ => ⟨[], rfl⟩
  | t :: ts, h => by
    obtain ⟨sigs, hs⟩ := parseSignals_ok_of_parseable parseSignal ts
      (fun u hu => h u (List.mem_cons_of_mem _ hu))
    by_cases he : t.changeSignal = ""
    · exact ⟨sigs, by simp [parseSignals, he, hs]⟩
    · obtain ⟨sig, hsig⟩ := Option.isSome_iff_exists.mp (h t (List.mem_cons_self _ _) he)
      refine ⟨(t.changeSignal, sig) :: sigs, ?_⟩
      simp [parseSignals, he, hsig, hs, Bind.bind, Except.bind]

theorem parseSignals_error_of_unparseable (parseSignal : String → Option Nat) :
    ∀ (ts : List Template),
    (∃ t ∈ ts, t.changeSignal ≠ "" ∧ parseSignal t.changeSignal = none) →
    ∃ s, s ≠ "" ∧ parseSignal s = none ∧
      parseSignals parseSignal ts = .error (.badSignal s)
  | [], h => by simp at h
  | t :: ts, h => by
    by_cases he : t.changeSignal = ""
    · have hrest : ∃ u ∈ ts, u.changeSignal ≠ "" ∧ parseSignal u.changeSignal = none := by
        obtain ⟨u, hu, h1, h2⟩ := h
        rcases List.mem_cons.mp hu with rfl | hu2
        · exact absurd he h1
        · exact ⟨u, hu2, h1, h2⟩
      obtain ⟨s, h1, h2, h3⟩ := parseSignals_error_of_unparseable parseSignal ts hrest
      exact ⟨s, h1, h2, by simp [parseSignals, he, h3]⟩
    · cases hp : parseSignal t.changeSignal with
      | none => exact ⟨t.changeSignal, he, hp, by simp [parseSignals, he, hp]⟩
      | some sig =>
        have hrest : ∃ u ∈ ts, u.changeSignal ≠ "" ∧ parseSignal u.changeSignal = none := by
          obtain ⟨u, hu, h1, h2⟩ := h
          rcases List.mem_cons.mp hu with rfl | hu2
          · rw [hp] at h2
            exact absurd h2 (by simp)
          · exact ⟨u, hu2, h1, h2⟩
        obtain ⟨s, h1, h2, h3⟩ := parseSignals_error_of_unparseable parseSignal ts hrest
        exact ⟨s, h1, h2, by simp [parseSignals, he, hp, h3, Bind.bind, Except.bind]⟩

theorem parseSignals_keys_ne_empty (parseSignal : String → Option Nat) :
    ∀ (ts : List Template) (sigs : List (String × Nat)),
    parseSignals parseSignal ts = .ok sigs → ∀ p ∈ sigs, p.1 ≠ ""
  | [], sigs, h, p, hp => by
    simp only [parseSignals] at h
    cases h
    simp at hp
  | t :: ts, sigs, h, p, hp => by
    by_cases he : t.changeSignal = ""
    · rw [show parseSignals parseSignal (t :: ts) = parseSignals parseSignal ts from by
        simp [parseSignals, he]] at h
      exact parseSignals_keys_ne_empty parseSignal ts sigs h p hp
    · cases hps : parseSignal t.changeSignal with
      | none => simp [parseSignals, he, hps] at h
      | some sig =>
        cases hrest : parseSignals parseSignal ts with
        | error e1 => simp [parseSignals, he, hps, hrest, Bind.bind, Except.bind] at h
        | ok sigs1 =>
          have : sigs = (t.changeSignal, sig) :: sigs1 := by
            rw [show parseSignals parseSignal (t :: ts) =
                .ok ((t.changeSignal, sig) :: sigs1) from by
              simp [parseSignals, he, hps, hrest, Bind.bind, Except.bind]] at h
            cases h
            rfl
          subst this
          rcases List.mem_cons.mp hp with rfl | hp2
          · exact he
          · exact parseSignals_keys_ne_empty parseSignal ts sigs1 hrest p hp2

/-- C9: NewTaskTemplateManager's signal table is keyed on ChangeSignal being
non-empty, not on the change mode: (1) a non-empty unparseable ChangeSignal
fails construction with a parse error regardless of mode; (2) a constructed
manager's signal table has no entry with an empty signal name, so a
signal-mode template with an empty ChangeSignal contributes nothing; (3)
when every non-empty ChangeSignal parses, the signal-parsing loop succeeds
even if an empty signal would not parse. -/
theorem c9_signal_parsing_keyed_on_signal (parseSignal : String → Option Nat)
    (clientPath : String → Bool → String × Bool)
    (waitValid : Option Nat × Option Nat → Bool)
    (newRunner : List (CTConf × Template) → Except TtmError Runner)
    (procEnvs : List String) (taskEnvAll : String → Option String)
    (cfg : TTMConfig) :
    ((TTMConfig.Validate (some cfg) = none) →
      (∃ t ∈ cfg.templates, t.changeSignal ≠ "" ∧ parseSignal t.changeSignal = none) →
      ∃ s, s ≠ "" ∧ parseSignal s = none ∧
        NewTaskTemplateManager parseSignal clientPath waitValid newRunner procEnvs
          taskEnvAll (some cfg) = .error (.badSignal s)) ∧
    (∀ tm, NewTaskTemplateManager parseSignal clientPath waitValid newRunner procEnvs
        taskEnvAll (some cfg) = .ok tm → ∀ p ∈ tm.signals, p.1 ≠ "") ∧
    ((∀ t ∈ cfg.templates, t.changeSignal ≠ "" → (parseSignal t.changeSignal).isSome) →
      ∃ sigs, parseSignals parseSignal cfg.templates = .ok sigs) := by
  refine ⟨?_, ?_, parseSignals_ok_of_parseable parseSignal cfg.templates⟩
  · intro hval hex
    obtain ⟨s, h1, h2, h3⟩ := parseSignals_error_of_unparseable parseSignal cfg.templates hex
    exact ⟨s, h1, h2, by simp [NewTaskTemplateManager, hval, h3, Bind.bind, Except.bind]⟩
  · intro tm h p hp
    unfold NewTaskTemplateManager at h
    cases hval : TTMConfig.Validate (some cfg) with
    | some e1 => simp [hval] at h
    | none =>
      rw [hval] at h
      cases hps : parseSignals parseSignal cfg.templates with
      | error e1 => simp [hps, Bind.bind, Except.bind] at h
      | ok sigs =>
        cases htr : templateRunner clientPath waitValid newRunner procEnvs taskEnvAll cfg with
        | error e2 => simp [hps, htr, Bind.bind, Except.bind] at h
        | ok rl =>
          simp [hps, htr, Bind.bind, Except.bind] at h
          have : tm.signals = sigs := by rw [← h]
          rw [this] at hp
          exact parseSignals_keys_ne_empty parseSignal cfg.templates sigs hps p hp

theorem c9_signal_parsing_keyed_on_signal_witness :
    ∃ s, s ≠ "" ∧ (fun (_ : String) => (none : Option Nat)) s = none ∧
      NewTaskTemplateManager (fun _ => none) (fun p _ => (p, false)) (fun _ => true)
        (fun _ => .ok {}) [] (fun _ => none)
        (some { templates := [{ changeMode := ChangeMode.restart, changeSignal := "BOGUS" }] }) =
        .error (.badSignal s) := by
  apply (c9_signal_parsing_keyed_on_signal (fun _ => none) (fun p _ => (p, false)) (fun _ => true)
    (fun _ => .ok {}) [] (fun _ => none)
    { templates := [{ changeMode := ChangeMode.restart, changeSignal := "BOGUS" }] }).1
  · decide
  · exact ⟨{ changeMode := ChangeMode.restart, changeSignal := "BOGUS" },
      List.mem_singleton.mpr rfl, by decide, rfl⟩

/-! ## Claim C1: sandbox escapes abort construction -/

/-- A template whose expanded source or destination escapes the sandbox. -/
def escapesSandbox (clientPath : String → Bool → String × Bool) (t : Template) : Prop :=
  (t.sourcePath ≠ "" ∧ (clientPath t.sourcePath false).2 = true) ∨
  (t.destPath ≠ "" ∧ (clientPath t.destPath true).2 = true)

/-- A template whose wait and perms fields pass their validations. -/
def auxFieldsValid (waitValid : Option Nat × Option Nat → Bool) (t : Template) : Prop :=
  (match t.wait with
   | none => True
   | some w => waitValid w = true) ∧
  (t.perms ≠ "" → (parseOctal12 t.perms).isSome)

theorem parseOneTemplate_src_escape (clientPath : String → Bool → String × Bool)
    (waitValid : Option Nat × Option Nat → Bool) (taskDir : String)
    (denylist : List String) (t : Template)
    (h1 : t.sourcePath ≠ "") (h2 : (clientPath t.sourcePath false).2 = true) :
    parseOneTemplate true clientPath waitValid taskDir denylist t =
      .error TtmError.sourceEscapesErr := by
  simp [parseOneTemplate, h1, h2, Bind.bind, Except.bind]

theorem parseOneTemplate_dest_escape (clientPath : String → Bool → String × Bool)
    (waitValid : Option Nat × Option Nat → Bool) (taskDir : String)
    (denylist : List String) (t : Template)
    (hs : ¬ (t.sourcePath ≠ "" ∧ (clientPath t.sourcePath false).2 = true))
    (h1 : t.destPath ≠ "") (h2 : (clientPath t.destPath true).2 = true) :
    parseOneTemplate true clientPath waitValid taskDir denylist t =
      .error TtmError.destEscapesErr := by
  by_cases hsp : t.sourcePath = ""
  · simp [parseOneTemplate, hsp, h1, h2, Bind.bind, Except.bind]
  · have hesc : (clientPath t.sourcePath false).2 = false := by
      rcases Bool.eq_false_or_eq_true (clientPath t.sourcePath false).2 with h | h
      · exact absurd ⟨hsp, h⟩ hs
      · exact h
    simp [parseOneTemplate, hsp, hesc, h1, h2, Bind.bind, Except.bind]

theorem parseOneTemplate_ok_of_clean (clientPath : String → Bool → String × Bool)
    (waitValid : Option Nat × Option Nat → Bool) (taskDir : String)
    (denylist : List String) (t : Template)
    (hne : ¬ escapesSandbox clientPath t)
    (hok : auxFieldsValid waitValid t) :
    ∃ ct, parseOneTemplate true clientPath waitValid taskDir denylist t = .ok ct := by
  rw [escapesSandbox, not_or] at hne
  obtain ⟨hs, hd⟩ := hne
  obtain ⟨hw, hp⟩ := hok
  cases hres : parseOneTemplate true clientPath waitValid taskDir denylist t with
  | ok ct => exact ⟨ct, rfl⟩
  | error e =>
    exfalso
    have hs2 : t.sourcePath ≠ "" → (clientPath t.sourcePath false).2 = false := by
      intro h1
      rcases Bool.eq_false_or_eq_true (clientPath t.sourcePath false).2 with h | h
      · exact absurd ⟨h1, h⟩ hs
      · exact h
    have hd2 : t.destPath ≠ "" → (clientPath t.destPath true).2 = false := by
      intro h1
      rcases Bool.eq_false_or_eq_true (clientPath t.destPath true).2 with h | h
      · exact absurd ⟨h1, h⟩ hd
      · exact h
    have hperm : t.perms = "" ∨ ∃ v, parseOctal12 t.perms = some v := by
      by_cases h3 : t.perms = ""
      · exact Or.inl h3
      · exact Or.inr (Option.isSome_iff_exists.mp (hp h3))
    by_cases h1 : t.sourcePath = "" <;> by_cases h2 : t.destPath = "" <;>
      [skip; replace hd2 := hd2 h2; replace hs2 := hs2 h1;
        (replace hs2 := hs2 h1; replace hd2 := hd2 h2)] <;>
      cases hwt : t.wait <;> (rw [hwt] at hw; try simp at hw) <;>
      rcases hperm with h3 | ⟨v, hv⟩ <;>
      simp [parseOneTemplate, Bind.bind, Except.bind, *] at hres
    all_goals (split at hres <;> simp at hres)

theorem parseTemplateConfigsGo_escape (clientPath : String → Bool → String × Bool)
    (waitValid : Option Nat × Option Nat → Bool) (taskDir : String) (denylist : List String) :
    ∀ (ts : List Template),
    (∀ t ∈ ts, auxFieldsValid waitValid t) →
    (∃ t ∈ ts, escapesSandbox clientPath t) →
    parseTemplateConfigsGo true clientPath waitValid taskDir denylist ts =
        .error TtmError.sourceEscapesErr ∨
    parseTemplateConfigsGo true clientPath waitValid taskDir denylist ts =
        .error TtmError.destEscapesErr
  | [], _, hex => by simp at hex
  | t :: ts, hok, hex => by
    by_cases hs : t.sourcePath ≠ "" ∧ (clientPath t.sourcePath false).2 = true
    · left
      simp [parseTemplateConfigsGo,
        parseOneTemplate_src_escape clientPath waitValid taskDir denylist t hs.1 hs.2,
        Bind.bind, Except.bind]
    · by_cases hd : t.destPath ≠ "" ∧ (clientPath t.destPath true).2 = true
      · right
        simp [parseTemplateConfigsGo,
          parseOneTemplate_dest_escape clientPath waitValid taskDir denylist t hs hd.1 hd.2,
          Bind.bind, Except.bind]
      · have hne : ¬ escapesSandbox clientPath t := by
          rw [escapesSandbox, not_or]
          exact ⟨hs, hd⟩
        obtain ⟨ct, hct⟩ := parseOneTemplate_ok_of_clean clientPath waitValid taskDir denylist t
          hne (hok t (List.mem_cons_self _ _))
        have hrest : ∃ u ∈ ts, escapesSandbox clientPath u := by
          obtain ⟨u, hu, he⟩ := hex
          rcases List.mem_cons.mp hu with rfl | hu2
          · exact absurd he hne
          · exact ⟨u, hu2, he⟩
        rcases parseTemplateConfigsGo_escape clientPath waitValid taskDir denylist ts
          (fun u hu => hok u (List.mem_cons_of_mem _ hu)) hrest with h | h
        · left
          simp [parseTemplateConfigsGo, hct, h, Bind.bind, Except.bind]
        · right
          simp [parseTemplateConfigsGo, hct, h, Bind.bind, Except.bind]

/-- C1: with sandboxing enabled, a template set containing a template whose
expanded source or destination escapes the task directory makes
NewTaskTemplateManager fail with one of the two distinct sandbox-escape
errors — for every possible engine constructor, so no rendering engine is
ever built or started for such a configuration. -/
theorem c1_sandbox_escape_fails_construction (parseSignal : String → Option Nat)
    (clientPath : String → Bool → String × Bool)
    (waitValid : Option Nat × Option Nat → Bool)
    (newRunner : List (CTConf × Template) → Except TtmError Runner)
    (procEnvs : List String) (taskEnvAll : String → Option String)
    (cfg : TTMConfig)
    (hsb : cfg.templateConfig.disableSandbox = false)
    (hval : TTMConfig.Validate (some cfg) = none)
    (hsig : ∀ t ∈ cfg.templates, t.changeSignal ≠ "" → (parseSignal t.changeSignal).isSome)
    (hok : ∀ t ∈ cfg.templates, auxFieldsValid waitValid t)
    (hesc : ∃ t ∈ cfg.templates, escapesSandbox clientPath t) :
    (NewTaskTemplateManager parseSignal clientPath waitValid newRunner procEnvs taskEnvAll
        (some cfg) = .error TtmError.sourceEscapesErr ∨
     NewTaskTemplateManager parseSignal clientPath waitValid newRunner procEnvs taskEnvAll
        (some cfg) = .error TtmError.destEscapesErr) ∧
    TtmError.sourceEscapesErr ≠ TtmError.destEscapesErr := by
  refine ⟨?_, by simp⟩
  obtain ⟨sigs, hsigs⟩ := parseSignals_ok_of_parseable parseSignal cfg.templates hsig
  have hne : ¬ cfg.templates.isEmpty := by
    obtain ⟨t, ht, _⟩ := hesc
    cases hl : cfg.templates
    · rw [hl] at ht
      simp at ht
    · simp [hl]
  have hparse := parseTemplateConfigsGo_escape clientPath waitValid cfg.taskDir
    cfg.templateConfig.functionDenylist cfg.templates hok hesc
  have hpt : parseTemplateConfigs clientPath waitValid cfg =
      parseTemplateConfigsGo true clientPath waitValid cfg.taskDir
        cfg.templateConfig.functionDenylist cfg.templates := by
    simp [parseTemplateConfigs, hsb]
  rcases hparse with h | h
  · left
    simp [NewTaskTemplateManager, hval, hsigs, templateRunner, hne, hpt, h,
      Bind.bind, Except.bind]
  · right
    simp [NewTaskTemplateManager, hval, hsigs, templateRunner, hne, hpt, h,
      Bind.bind, Except.bind]

theorem c1_sandbox_escape_fails_construction_witness :
    NewTaskTemplateManager (fun _ => none) (fun p _ => (p, true)) (fun _ => true)
      (fun _ => .ok {}) [] (fun _ => none)
      (some { templates := [{ destPath := "/etc/passwd" }] }) =
      .error TtmError.sourceEscapesErr ∨
    NewTaskTemplateManager (fun _ => none) (fun p _ => (p, true)) (fun _ => true)
      (fun _ => .ok {}) [] (fun _ => none)
      (some { templates := [{ destPath := "/etc/passwd" }] }) =
      .error TtmError.destEscapesErr :=
  (c1_sandbox_escape_fails_construction (fun _ => none) (fun p _ => (p, true)) (fun _ => true)
    (fun _ => .ok {}) [] (fun _ => none)
    { templates := [{ destPath := "/etc/passwd" }] }
    rfl (by decide)
    (fun t ht => by
      rw [List.mem_singleton.mp ht]
      intro h
      exact absurd rfl h)
    (fun t ht => by
      rw [List.mem_singleton.mp ht]
      exact ⟨trivial, fun h => absurd rfl h⟩)
    ⟨{ destPath := "/etc/passwd" }, List.mem_singleton.mpr rfl,
      Or.inr ⟨by decide, rfl⟩⟩).1

/-! ## Claims C3, C6, C4, C10: dispatcher behavior -/

theorem mem_eq_of_nodup_keys {β : Type} (l : List (String × β)) (p q : String × β)
    (hp : p ∈ l) (hq : q ∈ l) (hk : p.1 = q.1)
    (hnd : (l.map Prod.fst).Nodup) : p = q := by
  have hp1 : (p.1, p.2) ∈ l := by
    rw [Prod.mk.eta]
    exact hp
  have hq1 : (q.1, q.2) ∈ l := by
    rw [Prod.mk.eta]
    exact hq
  have h1 := lookup_eq_of_mem_nodup l p.1 p.2 hp1 hnd
  have h2 := lookup_eq_of_mem_nodup l q.1 q.2 hq1 hnd
  rw [hk] at h1
  rw [h1] at h2
  have hv : p.2 = q.2 := by injection h2
  obtain ⟨pa, pb⟩ := p
  obtain ⟨qa, qb⟩ := q
  simp only at hk hv
  rw [hk, hv]

theorem hrLookup_scanHr_nonstale (art : Nat) (events : RenderEvents) (hr : HandledRenders)
    (p : String × RenderEvent) (hp : p ∈ events)
    (hnd : (events.map Prod.fst).Nodup)
    (hns : ¬ art ≥ p.2.lastDidRender) :
    hrLookup (scanHr art events hr) p.1 = hrLookup hr p.1 := by
  apply hrLookup_scanHr
  intro q hq hk
  rw [mem_eq_of_nodup_keys events q p hq hp hk hnd]
  exact hns

theorem lifecycleCalls_append (a b : List Action) :
    lifecycleCalls (a ++ b) = lifecycleCalls a ++ lifecycleCalls b := by
  simp [lifecycleCalls]

theorem lifecycleCalls_replicate_env (n : Nat) (m : List (String × String)) :
    lifecycleCalls (List.replicate n (Action.setTemplateEnv m)) = [] := by
  simp [lifecycleCalls, List.filter_eq_nil_iff, List.mem_replicate, Action.isLifecycleCall]

/-- C3: a batch with at least one fresh (non-stale, non-deduplicated)
restart-mode template, all ids known, env harvest succeeding and no
shutdown, produces exactly one lifecycle call: a Restart with the
TaskRestartSignal event and the fixed display message; no Signal, Exec or
Kill call is made for that batch. -/
theorem c3_restart_supremacy (lookup : TemplateLookup) (sigTable : List (String × Nat))
    (m : List (String × String)) (sf : String → Bool) (eo : ChangeScript → ExecResult)
    (so : Nat → Nat) (hr0 : HandledRenders) (art : Nat) (events : RenderEvents)
    (hids : ∀ p ∈ events, (lookup.lookup p.1).isSome)
    (hnd : (events.map Prod.fst).Nodup)
    (hres : ∃ p ∈ events.filter (isFresh hr0 art),
      ∃ t ∈ (lookup.lookup p.1).getD [], t.changeMode = ChangeMode.restart) :
    lifecycleCalls (onTemplateRendered lookup sigTable (.ok m) sf eo so false
        hr0 art events).actions =
      [Action.restartTask ((NewTaskEvent .taskRestartSignal).SetDisplayMessage
        "Template with change_mode restart re-rendered") false] := by
  rw [onTemplateRendered_clean lookup sigTable m sf eo so false hr0 art events hids hnd]
  have hrestart : restartOfEvents lookup (events.filter (isFresh hr0 art)) = true := by
    simp only [restartOfEvents, List.any_eq_true]
    obtain ⟨p, hp, t, ht, hm⟩ := hres
    exact ⟨p, hp, t, ht, by simp [hm]⟩
  simp [hrestart, lifecycleCalls_append, lifecycleCalls_replicate_env,
    lifecycleCalls, Action.isLifecycleCall, restartAction]

theorem c3_restart_supremacy_witness :
    lifecycleCalls (onTemplateRendered
        [("x", [{ changeMode := ChangeMode.restart }]), ("y", [{ changeMode := ChangeMode.signal, changeSignal := "SIGHUP" }])]
        [("SIGHUP", 1)] (.ok []) (fun _ => false) (fun _ => .exited 0) (fun _ => 0) false
        [] 0
        [("x", { lastWouldRender := 5, lastDidRender := 5 }),
         ("y", { lastWouldRender := 5, lastDidRender := 5 })]).actions =
      [Action.restartTask ((NewTaskEvent .taskRestartSignal).SetDisplayMessage
        "Template with change_mode restart re-rendered") false] := by
  apply c3_restart_supremacy
  · decide
  · decide
  · exact ⟨("x", { lastWouldRender := 5, lastDidRender := 5 }), by decide,
      { changeMode := ChangeMode.restart }, by decide, rfl⟩

/-- C6: on an actionable clean batch with no shutdown, when the batch's
maximum splay (over fresh, non-noop templates) is zero no delay is slept;
when it is non-zero the slept delay is the RNG draw over that maximum,
which lies in [0, maxSplay) whenever the RNG meets rand.Int63n's contract. -/
theorem c6_splay_bound (lookup : TemplateLookup) (sigTable : List (String × Nat))
    (m : List (String × String)) (sf : String → Bool) (eo : ChangeScript → ExecResult)
    (so : Nat → Nat) (hr0 : HandledRenders) (art : Nat) (events : RenderEvents)
    (hids : ∀ p ∈ events, (lookup.lookup p.1).isSome)
    (hnd : (events.map Prod.fst).Nodup)
    (hrand : ∀ n, 0 < n → so n < n)
    (hact : batchActionable lookup hr0 art events = true) :
    (batchMaxSplay lookup (events.filter (isFresh hr0 art)) = 0 →
      (onTemplateRendered lookup sigTable (.ok m) sf eo so false hr0 art events).delay =
        none) ∧
    (0 < batchMaxSplay lookup (events.filter (isFresh hr0 art)) →
      (onTemplateRendered lookup sigTable (.ok m) sf eo so false hr0 art events).delay =
        some (so (batchMaxSplay lookup (events.filter (isFresh hr0 art)))) ∧
      so (batchMaxSplay lookup (events.filter (isFresh hr0 art))) <
        batchMaxSplay lookup (events.filter (isFresh hr0 art))) := by
  rw [onTemplateRendered_clean lookup sigTable m sf eo so false hr0 art events hids hnd]
  have hsh := shouldHandle_of_actionable lookup (events.filter (isFresh hr0 art)) hact
  constructor
  · intro h0
    simp [hsh, h0]
  · intro hpos
    have hne : batchMaxSplay lookup (events.filter (isFresh hr0 art)) ≠ 0 := by omega
    refine ⟨by simp [hsh, hne], hrand _ hpos⟩

theorem c6_splay_bound_witness :
    (onTemplateRendered [("x", [{ changeMode := ChangeMode.restart, splay := 10 }])]
        [] (.ok []) (fun _ => false) (fun _ => .exited 0) (fun n => n - 1) false
        [] 0 [("x", { lastWouldRender := 5, lastDidRender := 5 })]).delay = some 9 ∧
    (9 : Nat) < 10 := by
  have h := (c6_splay_bound [("x", [{ changeMode := ChangeMode.restart, splay := 10 }])]
    [] [] (fun _ => false) (fun _ => .exited 0) (fun n => n - 1)
    [] 0 [("x", { lastWouldRender := 5, lastDidRender := 5 })]
    (by decide) (by decide) (fun n hn => by show n - 1 < n; omega) (by decide)).2 (by decide)
  have hb : batchMaxSplay [("x", [{ changeMode := ChangeMode.restart, splay := 10 }])]
      ([("x", { lastWouldRender := 5, lastDidRender := 5 })].filter (isFresh [] 0)) = 10 := by
    decide
  rw [hb] at h
  exact h

/-- Fresh events of a clean batch are not fresh after the commit. -/
theorem filter_isFresh_after_commit (_lookup : TemplateLookup) (hr0 : HandledRenders)
    (art : Nat) (events : RenderEvents)
    (hnd : (events.map Prod.fst).Nodup) :
    events.filter (isFresh
      (commitHandled events ((events.filter (isFresh hr0 art)).map Prod.fst)
        (scanHr art events hr0)) art) = [] := by
  rw [List.filter_eq_nil_iff]
  intro p hp
  by_cases h1 : art ≥ p.2.lastDidRender
  · simp [isFresh]
    omega
  · simp only [isFresh, Bool.and_eq_true, decide_eq_true_eq, not_and]
    intro hlt
    rw [hrLookup_commitHandled]
    by_cases h2 : p.1 ∈ (events.filter (isFresh hr0 art)).map Prod.fst
    · obtain ⟨q, hq, hqk⟩ := List.mem_map.mp h2
      have hqe : q ∈ events := List.mem_of_mem_filter hq
      have hqp : q = p := mem_eq_of_nodup_keys events q p hqe hp hqk hnd
      subst hqp
      rw [if_pos h2, evLdr_eq events q.1 q.2 (by rw [Prod.mk.eta]; exact hqe) hnd]
      omega
    · rw [if_neg h2]
      have hp2 : ¬ isFresh hr0 art p = true := by
        intro hf
        exact h2 (List.mem_map.mpr ⟨p, List.mem_filter.mpr ⟨hp, hf⟩, rfl⟩)
      rw [hrLookup_scanHr_nonstale art events hr0 p hp hnd h1]
      simp only [isFresh, Bool.and_eq_true, decide_eq_true_eq, not_and] at hp2
      have := hp2 hlt
      omega

/-- Without a commit, freshness is unchanged by the scan's stale updates. -/
theorem filter_isFresh_scanHr (_lookup : TemplateLookup) (hr0 : HandledRenders)
    (art : Nat) (events : RenderEvents)
    (hnd : (events.map Prod.fst).Nodup) :
    events.filter (isFresh (scanHr art events hr0) art) =
      events.filter (isFresh hr0 art) := by
  apply List.filter_congr
  intro p hp
  by_cases h1 : art ≥ p.2.lastDidRender
  · have h2 : ¬ art < p.2.lastDidRender := by omega
    simp [isFresh, h2]
  · simp only [isFresh]
    rw [hrLookup_scanHr_nonstale art events hr0 p hp hnd h1]

/-- C4: feeding the dispatcher the same clean event map a second time, with
the handledRenders carried over from the first feed, produces no lifecycle
call; and on an actionable first feed the handledRenders entry of every
fresh id is committed to that event's LastDidRender. -/
theorem c4_refeed_no_action (lookup : TemplateLookup) (sigTable : List (String × Nat))
    (m : List (String × String)) (sf : String → Bool) (eo : ChangeScript → ExecResult)
    (so : Nat → Nat) (hr0 : HandledRenders) (art : Nat) (events : RenderEvents)
    (hids : ∀ p ∈ events, (lookup.lookup p.1).isSome)
    (hnd : (events.map Prod.fst).Nodup) :
    lifecycleCalls (onTemplateRendered lookup sigTable (.ok m) sf eo so false
      (onTemplateRendered lookup sigTable (.ok m) sf eo so false hr0 art
        events).handledRenders
      art events).actions = [] ∧
    (batchActionable lookup hr0 art events = true →
      ∀ p ∈ events.filter (isFresh hr0 art),
        hrLookup (onTemplateRendered lookup sigTable (.ok m) sf eo so false hr0 art
          events).handledRenders p.1 = p.2.lastDidRender) := by
  rw [onTemplateRendered_clean lookup sigTable m sf eo so false hr0 art events hids hnd]
  by_cases hsb : (restartOfEvents lookup (events.filter (isFresh hr0 art)) ||
      !(sigFoldEvents lookup [] (events.filter (isFresh hr0 art))).isEmpty ||
      !(scriptsOfEvents lookup (events.filter (isFresh hr0 art))).isEmpty) = true
  · constructor
    · rw [show ((let fresh := events.filter (isFresh hr0 art)
          let restartB := restartOfEvents lookup fresh
          let sigs := sigFoldEvents lookup [] fresh
          let scripts := scriptsOfEvents lookup fresh
          let splay := batchMaxSplay lookup fresh
          let envActs := List.replicate fresh.length (Action.setTemplateEnv m)
          let shouldHandle := restartB || !sigs.isEmpty || !scripts.isEmpty
          if !shouldHandle then
            { handledRenders := scanHr art events hr0, actions := envActs }
          else if splay ≠ 0 && false then
            { handledRenders := scanHr art events hr0, actions := envActs }
          else
            { handledRenders := commitHandled events (fresh.map Prod.fst)
                (scanHr art events hr0)
              actions := envActs ++
                (if restartB then [restartAction]
                 else handleChangeModeSignal sigTable sf sigs ++
                   handleChangeModeScript eo scripts)
              delay := if splay ≠ 0 then some (so splay) else none }) :
            DispatchResult).handledRenders =
          commitHandled events ((events.filter (isFresh hr0 art)).map Prod.fst)
            (scanHr art events hr0) from by simp [hsb]]
      rw [onTemplateRendered_clean lookup sigTable m sf eo so false _ art events hids hnd]
      rw [filter_isFresh_after_commit lookup hr0 art events hnd]
      simp [restartOfEvents, sigFoldEvents, scriptsOfEvents, lifecycleCalls]
    · intro _ p hp
      rw [show ((let fresh := events.filter (isFresh hr0 art)
          let restartB := restartOfEvents lookup fresh
          let sigs := sigFoldEvents lookup [] fresh
          let scripts := scriptsOfEvents lookup fresh
          let splay := batchMaxSplay lookup fresh
          let envActs := List.replicate fresh.length (Action.setTemplateEnv m)
          let shouldHandle := restartB || !sigs.isEmpty || !scripts.isEmpty
          if !shouldHandle then
            { handledRenders := scanHr art events hr0, actions := envActs }
          else if splay ≠ 0 && false then
            { handledRenders := scanHr art events hr0, actions := envActs }
          else
            { handledRenders := commitHandled events (fresh.map Prod.fst)
                (scanHr art events hr0)
              actions := envActs ++
                (if restartB then [restartAction]
                 else handleChangeModeSignal sigTable sf sigs ++
                   handleChangeModeScript eo scripts)
              delay := if splay ≠ 0 then some (so splay) else none }) :
            DispatchResult).handledRenders =
          commitHandled events ((events.filter (isFresh hr0 art)).map Prod.fst)
            (scanHr art events hr0) from by simp [hsb]]
      rw [hrLookup_commitHandled]
      rw [if_pos (List.mem_map.mpr ⟨p, hp, rfl⟩)]
      exact evLdr_eq events p.1 p.2 (by rw [Prod.mk.eta]; exact List.mem_of_mem_filter hp)
        hnd
  · constructor
    · rw [show ((let fresh := events.filter (isFresh hr0 art)
          let restartB := restartOfEvents lookup fresh
          let sigs := sigFoldEvents lookup [] fresh
          let scripts := scriptsOfEvents lookup fresh
          let splay := batchMaxSplay lookup fresh
          let envActs := List.replicate fresh.length (Action.setTemplateEnv m)
          let shouldHandle := restartB || !sigs.isEmpty || !scripts.isEmpty
          if !shouldHandle then
            { handledRenders := scanHr art events hr0, actions := envActs }
          else if splay ≠ 0 && false then
            { handledRenders := scanHr art events hr0, actions := envActs }
          else
            { handledRenders := commitHandled events (fresh.map Prod.fst)
                (scanHr art events hr0)
              actions := envActs ++
                (if restartB then [restartAction]
                 else handleChangeModeSignal sigTable sf sigs ++
                   handleChangeModeScript eo scripts)
              delay := if splay ≠ 0 then some (so splay) else none }) :
            DispatchResult).handledRenders = scanHr art events hr0 from by
        simp only [Bool.not_eq_true] at hsb
        simp [hsb]]
      rw [onTemplateRendered_clean lookup sigTable m sf eo so false _ art events hids hnd]
      rw [filter_isFresh_scanHr lookup hr0 art events hnd]
      simp only [Bool.not_eq_true] at hsb
      simp [hsb, lifecycleCalls_replicate_env]
    · intro hact
      exact absurd (shouldHandle_of_actionable lookup _ hact) hsb

theorem c4_refeed_no_action_witness :
    lifecycleCalls (onTemplateRendered [("x", [{ changeMode := ChangeMode.restart }])]
      [] (.ok []) (fun _ => false) (fun _ => .exited 0) (fun _ => 0) false
      (onTemplateRendered [("x", [{ changeMode := ChangeMode.restart }])]
        [] (.ok []) (fun _ => false) (fun _ => .exited 0) (fun _ => 0) false
        [] 0 [("x", { lastWouldRender := 5, lastDidRender := 5 })]).handledRenders
      0 [("x", { lastWouldRender := 5, lastDidRender := 5 })]).actions = [] ∧
    hrLookup (onTemplateRendered [("x", [{ changeMode := ChangeMode.restart }])]
      [] (.ok []) (fun _ => false) (fun _ => .exited 0) (fun _ => 0) false
      [] 0 [("x", { lastWouldRender := 5, lastDidRender := 5 })]).handledRenders "x" = 5 := by
  have h := c4_refeed_no_action [("x", [{ changeMode := ChangeMode.restart }])]
    [] [] (fun _ => false) (fun _ => .exited 0) (fun _ => 0)
    [] 0 [("x", { lastWouldRender := 5, lastDidRender := 5 })]
    (by decide) (by decide)
  refine ⟨h.1, ?_⟩
  have h2 := h.2 (by decide) ("x", { lastWouldRender := 5, lastDidRender := 5 }) (by decide)
  exact h2

/-- C10, counterexample to the claim as stated: with shutdown arriving
during the splay sleep the batch's actions are indeed dropped (no lifecycle
call), but handledRenders IS updated for an id in the batch: a stale event
("a", LastDidRender 5 with allRenderedTime 10) is committed at
allRenderedTime during the scan, before the splay select. -/
theorem c10_counterexample :
    lifecycleCalls (onTemplateRendered
        [("a", [{ changeMode := ChangeMode.noop }]),
         ("b", [{ changeMode := ChangeMode.restart, splay := 7 }])]
        [] (.ok []) (fun _ => false) (fun _ => .exited 0) (fun n => n - 1) true
        [] 10
        [("a", { lastWouldRender := 5, lastDidRender := 5 }),
         ("b", { lastWouldRender := 20, lastDidRender := 20 })]).actions = [] ∧
    ¬ (∀ id ∈ ([("a", ({ lastWouldRender := 5, lastDidRender := 5 } : RenderEvent)),
         ("b", { lastWouldRender := 20, lastDidRender := 20 })].map Prod.fst),
        hrLookup (onTemplateRendered
          [("a", [{ changeMode := ChangeMode.noop }]),
           ("b", [{ changeMode := ChangeMode.restart, splay := 7 }])]
          [] (.ok []) (fun _ => false) (fun _ => .exited 0) (fun n => n - 1) true
          [] 10
          [("a", { lastWouldRender := 5, lastDidRender := 5 }),
           ("b", { lastWouldRender := 20, lastDidRender := 20 })]).handledRenders id =
        hrLookup [] id) := by
  decide

/-- C10, amended: if the shutdown channel is closed while the dispatcher is
sleeping out a non-zero splay delay, the batch's ACTIONS are dropped
atomically — no Restart, Signal or Exec (or Kill) is invoked and no commit
is made for any id in the handling list, so those fresh events stay
eligible for reprocessing; however handledRenders entries for stale events
(allRenderedTime at or after LastDidRender) have already been set to
allRenderedTime during the scan. -/
theorem c10_amended_shutdown_during_splay (lookup : TemplateLookup)
    (sigTable : List (String × Nat)) (m : List (String × String)) (sf : String → Bool)
    (eo : ChangeScript → ExecResult) (so : Nat → Nat)
    (hr0 : HandledRenders) (art : Nat) (events : RenderEvents)
    (hids : ∀ p ∈ events, (lookup.lookup p.1).isSome)
    (hnd : (events.map Prod.fst).Nodup)
    (hsplay : batchMaxSplay lookup (events.filter (isFresh hr0 art)) ≠ 0) :
    lifecycleCalls (onTemplateRendered lookup sigTable (.ok m) sf eo so true
        hr0 art events).actions = [] ∧
    (onTemplateRendered lookup sigTable (.ok m) sf eo so true
        hr0 art events).handledRenders = scanHr art events hr0 ∧
    (∀ p ∈ events.filter (isFresh hr0 art),
      hrLookup (onTemplateRendered lookup sigTable (.ok m) sf eo so true
        hr0 art events).handledRenders p.1 = hrLookup hr0 p.1) ∧
    (onTemplateRendered lookup sigTable (.ok m) sf eo so true
        hr0 art events).delay = none := by
  rw [onTemplateRendered_clean lookup sigTable m sf eo so true hr0 art events hids hnd]
  have hact := batchMaxSplay_pos lookup (events.filter (isFresh hr0 art)) hsplay
  have hsh := shouldHandle_of_actionable lookup (events.filter (isFresh hr0 art)) hact
  refine ⟨by simp [hsh, hsplay, lifecycleCalls_replicate_env],
    by simp [hsh, hsplay], ?_, by simp [hsh, hsplay]⟩
  intro p hp
  rw [show ((let fresh := events.filter (isFresh hr0 art)
      let restartB := restartOfEvents lookup fresh
      let sigs := sigFoldEvents lookup [] fresh
      let scripts := scriptsOfEvents lookup fresh
      let splay := batchMaxSplay lookup fresh
      let envActs := List.replicate fresh.length (Action.setTemplateEnv m)
      let shouldHandle := restartB || !sigs.isEmpty || !scripts.isEmpty
      if !shouldHandle then
        { handledRenders := scanHr art events hr0, actions := envActs }
      else if splay ≠ 0 && true then
        { handledRenders := scanHr art events hr0, actions := envActs }
      else
        { handledRenders := commitHandled events (fresh.map Prod.fst)
            (scanHr art events hr0)
          actions := envActs ++
            (if restartB then [restartAction]
             else handleChangeModeSignal sigTable sf sigs ++
               handleChangeModeScript eo scripts)
          delay := if splay ≠ 0 then some (so splay) else none }) :
        DispatchResult).handledRenders = scanHr art events hr0 from by
    simp [hsh, hsplay]]
  have hfr := List.mem_filter.mp hp
  have h1 : ¬ art ≥ p.2.lastDidRender := by
    have := hfr.2
    simp only [isFresh, Bool.and_eq_true, decide_eq_true_eq] at this
    omega
  exact hrLookup_scanHr_nonstale art events hr0 p hfr.1 hnd h1

theorem c10_amended_shutdown_during_splay_witness :
    lifecycleCalls (onTemplateRendered
        [("a", [{ changeMode := ChangeMode.noop }]),
         ("b", [{ changeMode := ChangeMode.restart, splay := 7 }])]
        [] (.ok []) (fun _ => false) (fun _ => .exited 0) (fun n => n - 1) true
        [] 10
        [("a", { lastWouldRender := 5, lastDidRender := 5 }),
         ("b", { lastWouldRender := 20, lastDidRender := 20 })]).actions = [] ∧
    hrLookup (onTemplateRendered
        [("a", [{ changeMode := ChangeMode.noop }]),
         ("b", [{ changeMode := ChangeMode.restart, splay := 7 }])]
        [] (.ok []) (fun _ => false) (fun _ => .exited 0) (fun n => n - 1) true
        [] 10
        [("a", { lastWouldRender := 5, lastDidRender := 5 }),
         ("b", { lastWouldRender := 20, lastDidRender := 20 })]).handledRenders "b" =
      hrLookup [] "b" := by
  have h := c10_amended_shutdown_during_splay
    [("a", [{ changeMode := ChangeMode.noop }]),
     ("b", [{ changeMode := ChangeMode.restart, splay := 7 }])]
    [] [] (fun _ => false) (fun _ => .exited 0) (fun n => n - 1)
    [] 10
    [("a", { lastWouldRender := 5, lastDidRender := 5 }),
     ("b", { lastWouldRender := 20, lastDidRender := 20 })]
    (by decide) (by decide) (by decide)
  exact ⟨h.1, h.2.2.1 ("b", { lastWouldRender := 20, lastDidRender := 20 }) (by decide)⟩

end NomadTemplate
